import Mathlib

/-!
# Verification of the MCP system-health server against its specification

This file gives a shallow embedding of the command-execution-and-response-envelope
subsystem of the repository (the single-file server `mcp_server_faultcheck.py`,
together with `mcp-server/core/command_executor.py`, `mcp-server/core/response_builder.py`
and `config/constants.py`), and proves or refutes the testable properties stated in
the specification.

Conventions of the embedding:
* Python strings are Lean `String`s (or `List Char` in the JSON section);
  Python `str` helpers (`splitlines`, `split`, `strip`, `startswith`, `in`, …)
  are modelled by the `py…` functions below, faithful to CPython semantics on
  the character sets that actually occur.
* The outside world (the results returned by `_run_command` for each external
  binary, and the contents of the sysfs files the server reads) is a record
  `Env`; every collector is a pure function of `Env`.
* A Python exception that is *not* caught inside the tool function (for
  example the `IndexError` raised by `parts[1].split()[0]` on a line whose
  right half is all whitespace) makes the collector return `Except.error`;
  `Except.ok` carries the `{code, message, data}` triple the tool places under
  `structuredContent.response`.
* Python `float` arithmetic in the CPU/memory collectors is modelled with
  exact fractions (decimal parsing, round-half-even formatting); the claims
  under examination only exercise inputs on which the rational and IEEE-754
  results agree.
-/

deriving instance DecidableEq for Except

/- ========================================================================
   Python string primitives
   ======================================================================== -/

/-- Auxiliary loop for `pySplitlines`: walks the character list, breaking at
`\r\n`, `\n` or `\r`, accumulating the current line reversed. A trailing
segment is kept only when nonempty, matching Python `str.splitlines`. -/
def splitlinesAux : List Char → List Char → List String
  | [], acc => if acc.isEmpty then [] else [String.mk acc.reverse]
  | '\r' :: '\n' :: rest, acc => String.mk acc.reverse :: splitlinesAux rest []
  | '\n' :: rest, acc => String.mk acc.reverse :: splitlinesAux rest []
  | '\r' :: rest, acc => String.mk acc.reverse :: splitlinesAux rest []
  | c :: rest, acc => splitlinesAux rest (c :: acc)

/-- Python `s.splitlines()`: `""` gives `[]`, a trailing newline does not
produce a trailing empty line. -/
def pySplitlines (s : String) : List String := splitlinesAux s.toList []

/-- Auxiliary loop for `pySplitWs`: tokenizer dropping whitespace runs. -/
def pySplitWsAux : List Char → List Char → List String
  | [], acc => if acc.isEmpty then [] else [String.mk acc.reverse]
  | c :: cs, acc =>
    if c.isWhitespace then
      if acc.isEmpty then pySplitWsAux cs []
      else String.mk acc.reverse :: pySplitWsAux cs []
    else pySplitWsAux cs (c :: acc)

/-- Python `s.split()` (no argument): split on whitespace runs, no empty
pieces, leading/trailing whitespace ignored. -/
def pySplitWs (s : String) : List String := pySplitWsAux s.data []

/-- Auxiliary loop for `pySplitOn`, fuel-indexed to stay structurally
recursive (the fuel is the input length, always sufficient since every step
consumes at least one character). -/
def pySplitOnAux (sep : List Char) : Nat → List Char → List Char → List (List Char)
  | _, [], acc => [acc.reverse]
  | 0, l, acc => [acc.reverse ++ l]
  | fuel + 1, c :: cs, acc =>
    if sep.isPrefixOf (c :: cs) then
      acc.reverse :: pySplitOnAux sep fuel ((c :: cs).drop sep.length) []
    else pySplitOnAux sep fuel cs (c :: acc)

/-- Python `s.split(sep)` for a nonempty separator: split on every
non-overlapping occurrence, left to right; always at least one piece. -/
def pySplitOn (s sep : String) : List String :=
  (pySplitOnAux sep.data s.data.length s.data []).map String.mk

/-- Python `sep.join(xs)`. -/
def pyJoin (sep : String) : List String → String
  | [] => ""
  | [x] => x
  | x :: y :: rest => x ++ sep ++ pyJoin sep (y :: rest)

/-- Python `s.split(sep, 1)[-1]`: the part after the first occurrence of
`sep`, or the whole string when `sep` does not occur. -/
def pySplitOnceLast (s sep : String) : String :=
  match pySplitOn s sep with
  | [] => s
  | _ :: rest => if rest.isEmpty then s else pyJoin sep rest

/-- Python `s.split(sep, 1)[1]`: the part after the first occurrence of `sep`
when `sep` occurs, otherwise the `IndexError` case (`none`). -/
def pySplitOnceAfter (s sep : String) : Option String :=
  match pySplitOn s sep with
  | _ :: r :: rest => some (pyJoin sep (r :: rest))
  | _ => none

/-- Drop leading whitespace characters. -/
def dropWhileWs : List Char → List Char
  | [] => []
  | c :: cs => if c.isWhitespace then dropWhileWs cs else c :: cs

/-- Python `s.strip()`: remove whitespace from both ends. -/
def pyStrip (s : String) : String :=
  String.mk ((dropWhileWs (dropWhileWs s.data).reverse).reverse)

/-- Python `s.startswith(pre)`. -/
def pyStartsWith (s pre : String) : Bool := pre.data.isPrefixOf s.data

/-- Python `needle in hay` for strings: substring test. -/
def pyContains (hay needle : String) : Bool :=
  hay.toList.tails.any (fun t => needle.toList.isPrefixOf t)

/-- Fold a big-endian list of decimal digit characters into a `Nat`. -/
def digitsToNat (l : List Char) : Nat :=
  l.foldl (fun a c => 10 * a + (c.toNat - 48)) 0

/-- Python `int(s)` on a decimal string: optional surrounding whitespace,
optional sign, at least one digit; anything else raises `ValueError`
(modelled as `none`). -/
def pyInt (s : String) : Option Int :=
  let t := (pyStrip s).data
  let signAndDigits : Bool × List Char :=
    match t with
    | '-' :: rest => (true, rest)
    | '+' :: rest => (false, rest)
    | _ => (false, t)
  let ds := signAndDigits.2
  if ds.isEmpty then none
  else if ds.all Char.isDigit then
    some (if signAndDigits.1 then -(digitsToNat ds : Int) else (digitsToNat ds : Int))
  else none

/- ========================================================================
   Command execution (`core/command_executor.py` and `_run_command`)
   ======================================================================== -/

/-- The `(stdout, stderr, returncode)` triple produced by either command
runner. -/
structure CommandResult where
  stdout : String
  stderr : String
  exitCode : Int
deriving Repr, DecidableEq

/-- What happened on the OS side of one `subprocess.run` call: the process
completed (with raw, untrimmed output and its own exit code), the call
exceeded the execution timeout, or some other exception was raised (message
= Python `str(e)`). -/
inductive ExecOutcome where
  | completed (stdout stderr : String) (returncode : Int)
  | timedOut
  | failed (msg : String)
deriving Repr, DecidableEq

namespace CommandExecutor

/-- `CommandExecutor.execute` of `core/command_executor.py`: on completion
return trimmed stdout/stderr and the real exit code; on
`subprocess.TimeoutExpired` return `("", "Command timeout after Ns", -1)`;
on any other exception return `("", "Command execution failed: <str(e)>", -1)`.
The SSH/sudo wrapping of the command line is opaque to the caller and does
not affect the result shape. The function is total: no outcome raises. -/
def execute (timeout : Nat) (outcome : ExecOutcome) : CommandResult :=
  match outcome with
  | .completed out err rc => ⟨pyStrip out, pyStrip err, rc⟩
  | .timedOut => ⟨"", "Command timeout after " ++ toString timeout ++ "s", -1⟩
  | .failed msg => ⟨"", "Command execution failed: " ++ msg, -1⟩

end CommandExecutor

/-- `_run_command` of `mcp_server_faultcheck.py`: trimmed output and real exit
code on completion; `("", str(e), -1)` on any exception. The exact `str(e)`
of a `TimeoutExpired` embeds the command line, which this model does not
track, so the timeout case carries a representative message. -/
def run_command : ExecOutcome → CommandResult
  | .completed out err rc => ⟨pyStrip out, pyStrip err, rc⟩
  | .timedOut => ⟨"", "Command timed out after 3 seconds", -1⟩
  | .failed msg => ⟨"", msg, -1⟩

/- ========================================================================
   Response construction (`_make_response` / `ERROR_CODE`)
   ======================================================================== -/

/-- One record of a collector response: an insertion-ordered mapping from
field name to string value (every value the single-file server stores is a
string). -/
def Record := List (String × String)
deriving DecidableEq, Repr

/-- The `ERROR_CODE` table of `mcp_server_faultcheck.py` (identical to
`ErrorCode`/`ERROR_MESSAGES` of `config/constants.py`). -/
def ERROR_CODE (code : Int) : Option String :=
  if code = 0 then some "success"
  else if code = 1001 then some "command not found or permission denied"
  else if code = 1002 then some "command execution failed"
  else if code = 1003 then some "failed to parse response"
  else if code = 1004 then some "unexpected exception occurred"
  else if code = 1005 then some "device not available or no matching hardware found"
  else none

/-- The `structuredContent.response` part of an envelope. -/
structure Resp where
  code : Int
  message : String
  data : List Record
deriving DecidableEq, Repr

/-- `_make_response(code, data, message)` restricted to the
`structuredContent.response` triple it builds: a `None` data argument becomes
`[]`; the message falls back to the `ERROR_CODE` default when absent or falsy
(the empty string), with `"unknown error"` for unknown codes. -/
def make_response (code : Int) (data : Option (List Record)) (message : Option String) : Resp :=
  let d := data.getD []
  let msg :=
    match message with
    | some m => if m = "" then (ERROR_CODE code).getD "unknown error" else m
    | none => (ERROR_CODE code).getD "unknown error"
  ⟨code, msg, d⟩

/- ========================================================================
   The environment a collector runs against
   ======================================================================== -/

/-- Results of the external commands (as returned by `_run_command`, i.e.
already trimmed unless the execution itself failed) and sysfs file contents.
`sysFile p = none` models both a missing path and a failing read. -/
structure Env where
  ibdev2netdev : CommandResult
  sysctl_a : CommandResult
  mlnx_qos : String → CommandResult
  ethtool_i : String → CommandResult
  ethtool_S : String → CommandResult
  lspci_vvvs : String → CommandResult
  nvme_list : CommandResult
  top_cpu : CommandResult
  free_m : CommandResult
  sysFile : String → Option String

/-- A vacuous environment, used to build concrete test environments by
structure update. -/
def Env.default : Env :=
  { ibdev2netdev := ⟨"", "", 0⟩
    sysctl_a := ⟨"", "", 0⟩
    mlnx_qos := fun _ => ⟨"", "", 0⟩
    ethtool_i := fun _ => ⟨"", "", 0⟩
    ethtool_S := fun _ => ⟨"", "", 0⟩
    lspci_vvvs := fun _ => ⟨"", "", 0⟩
    nvme_list := ⟨"", "", 0⟩
    top_cpu := ⟨"", "", 0⟩
    free_m := ⟨"", "", 0⟩
    sysFile := fun _ => none }

/-- Run a per-line entry builder over the enumerated lines, in order; a line
may be skipped (`none`), contribute a record, or raise (aborting the whole
tool call, as an uncaught exception does). -/
def collectEntries (f : String → Except String (Option Record)) :
    List String → Except String (List Record)
  | [] => Except.ok []
  | l :: ls =>
    match f l with
    | Except.error e => Except.error e
    | Except.ok entry =>
      match collectEntries f ls with
      | Except.error e => Except.error e
      | Except.ok rest =>
        match entry with
        | some r => Except.ok (r :: rest)
        | none => Except.ok rest

/- ========================================================================
   getArpConfig
   ======================================================================== -/

/-- The `keys_map` of `getArpConfig`, in source order. -/
def keys_map : List (String × String) :=
  [("disable_ipv6", "disableIpv6"),
   ("arp_ignore", "arpIgnore"),
   ("arp_announce", "arpAnnounce"),
   ("rp_filter", "rpFilter"),
   ("arp_filter", "arpFilter"),
   ("arp_notify", "arpNotify"),
   ("arp_accept", "arpAccept")]

/-- One sysctl lookup of `getArpConfig`: run `sysctl -a`; on non-zero exit the
field value is `""`; otherwise take the first output line starting with
`"<iface>.<raw_key>"` and return the trimmed part after the first `" = "`
(the whole line when `" = "` is absent, per `split(" = ", 1)[-1]`); `""` when
no line matches. -/
def arpSysctlValue (env : Env) (iface raw_key : String) : String :=
  let r := env.sysctl_a
  if r.exitCode ≠ 0 then ""
  else
    let full_key := iface ++ "." ++ raw_key
    match (pySplitlines r.stdout).find? (fun l => pyStartsWith l full_key) with
    | some l => pyStrip (pySplitOnceLast l " = ")
    | none => ""

/-- Processing of one `ibdev2netdev` output line in `getArpConfig`: skip the
line unless splitting on `" ==> "` gives exactly two parts; take the first
whitespace-separated token of the right part as the interface (`IndexError`
when the right part has no token); build the entry field by field. -/
def arpLineEntry (env : Env) (line : String) : Except String (Option Record) :=
  let parts := pySplitOn line " ==> "
  if parts.length ≠ 2 then Except.ok none
  else
    match (pySplitWs (parts.getD 1 "")).head? with
    | none => Except.error "IndexError"
    | some iface =>
        Except.ok (some (("interface", iface) ::
          keys_map.map (fun kv => (kv.2, arpSysctlValue env iface kv.1))))

/-- `getArpConfig()`: enumerate interfaces with `ibdev2netdev` (non-zero exit
gives the 1002 envelope with the stderr embedded in the message), then build
one record per matching line and return the 0 envelope. -/
def getArpConfig (env : Env) : Except String Resp :=
  let r := env.ibdev2netdev
  if r.exitCode ≠ 0 then
    Except.ok (make_response 1002 (some []) (some ("ibdev2netdev failed: " ++ r.stderr)))
  else
    match collectEntries (arpLineEntry env) (pySplitlines r.stdout) with
    | Except.error e => Except.error e
    | Except.ok data => Except.ok (make_response 0 (some data) none)

/- ========================================================================
   getLosslessNetworkConfig
   ======================================================================== -/

/-- Python `s.split(sep)[-1]`: the part after the last occurrence of `sep`
(the whole string when `sep` is absent). -/
def pySplitLast (s sep : String) : String := (pySplitOn s sep).getLastD s

/-- Fuel-indexed little-endian base-`b` digit extraction; structurally
recursive so that it evaluates inside the kernel. The fuel never runs out
when it is at least the number being converted. -/
def natToRevDigitsAux (b : Nat) : Nat → Nat → List Nat
  | _, 0 => []
  | 0, _ + 1 => []
  | fuel + 1, n + 1 => (n + 1) % b :: natToRevDigitsAux b fuel ((n + 1) / b)

/-- Little-endian binary digits of a natural number (empty for 0). -/
def natToRevBits (n : Nat) : List Nat := natToRevDigitsAux 2 n n

/-- Python `bin(val)`: `"0b"` plus binary digits, preceded by `"-"` for
negative values; `bin(0) = "0b0"`. -/
def pyBin (val : Int) : String :=
  let mag := val.natAbs
  let digits :=
    if mag = 0 then "0"
    else String.mk ((natToRevBits mag).reverse.map (fun d => Char.ofNat (48 + d)))
  (if val < 0 then "-" else "") ++ "0b" ++ digits

/-- Python `bin(val)[-2:].zfill(2)` as used for `ecnEnable`: the last two
characters of `bin(val)`, left-padded with zeros to width 2. Note that for
`val < 2` the `"0b"` prefix leaks into the result (`bin(1)[-2:] = "b1"`). -/
def pyBinLast2Zfill (val : Int) : String :=
  let l := (pyBin val).toList
  let t := l.drop (l.length - 2)
  String.mk (List.replicate (2 - t.length) '0' ++ t)

/-- Accumulator of the `mlnx_qos` output scan: the three values the loop
keeps overwriting. -/
structure PfcAcc where
  trust_state : String
  pfc_enabled : List Nat
  pfc_tsa : String
deriving Repr, DecidableEq

/-- One step of the `mlnx_qos` output scan of `getLosslessNetworkConfig`:
a line containing `"Priority trust state"` sets the trust state from the part
after the last colon; otherwise a line containing `"enabled"` but not
`"priority"` sets the list of positions holding `"1"` among the tokens after
the first; otherwise a line containing `"tsa:"` sets the TSA value. -/
def pfcLineStep (acc : PfcAcc) (l : String) : PfcAcc :=
  if pyContains l "Priority trust state" then
    { acc with trust_state := pyStrip (pySplitLast l ":") }
  else if pyContains l "enabled" && !(pyContains l "priority") then
    { acc with pfc_enabled :=
        ((pySplitWs l).tail.enum.filter (fun p => p.2 = "1")).map (fun p => p.1) }
  else if pyContains l "tsa:" then
    { acc with pfc_tsa := pyStrip (pySplitLast l "tsa:") }
  else acc

/-- The PFC triple of `getLosslessNetworkConfig` for one interface: scan the
`mlnx_qos -i <iface>` output when it succeeded (first enabled priority, or
`"-1"` when none), empty strings when the command failed. -/
def pfcFields (env : Env) (iface : String) : List (String × String) :=
  let r := env.mlnx_qos iface
  if r.exitCode = 0 then
    let acc := (pySplitlines r.stdout).foldl pfcLineStep ⟨"", [], ""⟩
    [("pfcPriority",
      match acc.pfc_enabled.head? with
      | some i => toString i
      | none => "-1"),
     ("pfcTrust", acc.trust_state),
     ("pfcTsa", acc.pfc_tsa)]
  else [("pfcPriority", ""), ("pfcTrust", ""), ("pfcTsa", "")]

/-- The ECN field of `getLosslessNetworkConfig` for one device: `"00"` when
the sysfs traffic-class file is missing, unreadable or non-integer, otherwise
the last two characters of `bin(value)` zero-filled to width 2. -/
def ecnValue (env : Env) (device : String) : String :=
  match env.sysFile ("/sys/class/infiniband/" ++ device ++ "/tc/1/traffic_class") with
  | none => "00"
  | some content =>
    match pyInt (pyStrip content) with
    | none => "00"
    | some val => pyBinLast2Zfill val

/-- Processing of one `ibdev2netdev` line in `getLosslessNetworkConfig`:
interface and device tokens, the PFC triple from `mlnx_qos -i <iface>`
(empty strings when that command fails), and the ECN bits from the sysfs
traffic-class file (`"00"` when missing, unreadable, or non-integer). -/
def losslessLineEntry (env : Env) (line : String) : Except String (Option Record) :=
  let parts := pySplitOn line " ==> "
  if parts.length ≠ 2 then Except.ok none
  else match (pySplitWs (parts.getD 1 "")).head? with
  | none => Except.error "IndexError"
  | some iface =>
  match (pySplitWs (parts.getD 0 "")).head? with
  | none => Except.error "IndexError"
  | some device =>
    Except.ok (some ([("interface", iface)] ++ pfcFields env iface ++
      [("ecnEnable", ecnValue env device)]))

/-- `getLosslessNetworkConfig()`. -/
def getLosslessNetworkConfig (env : Env) : Except String Resp :=
  let r := env.ibdev2netdev
  if r.exitCode ≠ 0 then
    Except.ok (make_response 1002 (some []) (some "Failed to get IB interfaces"))
  else
    match collectEntries (losslessLineEntry env) (pySplitlines r.stdout) with
    | Except.error e => Except.error e
    | Except.ok data => Except.ok (make_response 0 (some data) none)

/- ========================================================================
   getPcieLinkSpeedForNic
   ======================================================================== -/

/-- The BDF extraction of `getPcieLinkSpeedForNic`: `""` when `ethtool -i`
fails or no output line contains `"bus-info"`; otherwise the trimmed part of
the first such line after its first colon (`IndexError` when that line has no
colon at all). -/
def pcieBdf (env : Env) (iface : String) : Except String String :=
  let r := env.ethtool_i iface
  if r.exitCode = 0 then
    match (pySplitlines r.stdout).find? (fun l => pyContains l "bus-info") with
    | some l =>
      match pySplitOnceAfter l ":" with
      | some a => Except.ok (pyStrip a)
      | none => Except.error "IndexError"
    | none => Except.ok ""
  else Except.ok ""

/-- The link-status extraction of `getPcieLinkSpeedForNic`: `"N/A"` when
`lspci -vvvs <bdf>` fails or no output line contains both `"LnkSta:"` and
`"Speed"`; otherwise the trimmed part of the first such line after its first
colon. -/
def pcieLnkSta (env : Env) (bdf : String) : Except String String :=
  let ls := env.lspci_vvvs bdf
  if ls.exitCode = 0 then
    match (pySplitlines ls.stdout).find?
        (fun l => pyContains l "LnkSta:" && pyContains l "Speed") with
    | some l =>
      match pySplitOnceAfter l ":" with
      | some a => Except.ok (pyStrip a)
      | none => Except.error "IndexError"
    | none => Except.ok "N/A"
  else Except.ok "N/A"

/-- Processing of one `ibdev2netdev` line in `getPcieLinkSpeedForNic`: find
the BDF in the `ethtool -i` output; *skip the entity entirely* (`continue`)
when the BDF is empty — which is exactly the case where `ethtool` failed or
produced no `bus-info` line; otherwise read the link status from `lspci`. -/
def pcieNicLineEntry (env : Env) (line : String) : Except String (Option Record) :=
  let parts := pySplitOn line " ==> "
  if parts.length ≠ 2 then Except.ok none
  else match (pySplitWs (parts.getD 1 "")).head? with
  | none => Except.error "IndexError"
  | some iface =>
  match pcieBdf env iface with
  | Except.error e => Except.error e
  | Except.ok bdf =>
  if bdf = "" then Except.ok none
  else match pcieLnkSta env bdf with
  | Except.error e => Except.error e
  | Except.ok lnksta =>
    Except.ok (some [("interface", iface), ("busInfo", bdf), ("lnkSta", lnksta)])

/-- `getPcieLinkSpeedForNic()`. -/
def getPcieLinkSpeedForNic (env : Env) : Except String Resp :=
  let r := env.ibdev2netdev
  if r.exitCode ≠ 0 then
    Except.ok (make_response 1002 (some []) (some "No IB devices found"))
  else
    match collectEntries (pcieNicLineEntry env) (pySplitlines r.stdout) with
    | Except.error e => Except.error e
    | Except.ok data => Except.ok (make_response 0 (some data) none)

/- ========================================================================
   getNicCongestionStatsTx / getSwitchCongestionStatsRx
   ======================================================================== -/

/-- Shared per-line processing of the two congestion collectors: run
`ethtool -S <iface>`, take the first line containing `statKey`, value after
the last colon, defaulting to `"0"` when `ethtool` fails or no line matches. -/
def congestionLineEntry (env : Env) (statKey fieldName : String) (line : String) :
    Except String (Option Record) :=
  let parts := pySplitOn line " ==> "
  if parts.length ≠ 2 then Except.ok none
  else match (pySplitWs (parts.getD 1 "")).head? with
  | none => Except.error "IndexError"
  | some iface =>
  let r := env.ethtool_S iface
  let v :=
    if r.exitCode = 0 then
      match (pySplitlines r.stdout).find? (fun l => pyContains l statKey) with
      | some l => pyStrip (pySplitLast l ":")
      | none => "0"
    else "0"
  Except.ok (some [("interface", iface), (fieldName, v)])

/-- `getNicCongestionStatsTx()`. -/
def getNicCongestionStatsTx (env : Env) : Except String Resp :=
  let r := env.ibdev2netdev
  if r.exitCode ≠ 0 then
    Except.ok (make_response 1002 (some []) (some "No interfaces"))
  else
    match collectEntries
      (congestionLineEntry env "tx_pause_ctrl_phy" "txPauseCtrlPhy") (pySplitlines r.stdout) with
    | Except.error e => Except.error e
    | Except.ok data => Except.ok (make_response 0 (some data) none)

/-- `getSwitchCongestionStatsRx()`. -/
def getSwitchCongestionStatsRx (env : Env) : Except String Resp :=
  let r := env.ibdev2netdev
  if r.exitCode ≠ 0 then
    Except.ok (make_response 1002 (some []) (some "No interfaces"))
  else
    match collectEntries
      (congestionLineEntry env "rx_pause_ctrl_phy" "rxPauseCtrlPhy") (pySplitlines r.stdout) with
    | Except.error e => Except.error e
    | Except.ok data => Except.ok (make_response 0 (some data) none)

/- ========================================================================
   getNvmePcieLinkSpeed
   ======================================================================== -/

/-- Device-name enumeration of `getNvmePcieLinkSpeed`: for every line
containing `"/dev/nvme"`, take `line.split("/dev/")[1].split("n")[0]` and
append it when not already present. (Since the part after `"/dev/"` starts
with `"nvme"`, the split on `"n"` makes the extracted name the empty
string — kept faithful to the source.) -/
def nvmeDevices : List String → List String → Except String (List String)
  | [], acc => Except.ok acc
  | line :: rest, acc =>
    if pyContains line "/dev/nvme" then
      match (pySplitOn line "/dev/").get? 1 with
      | none => Except.error "IndexError"
      | some afterDev =>
        let dev_name := (pySplitOn afterDev "n").headD ""
        nvmeDevices rest (if acc.contains dev_name then acc else acc ++ [dev_name])
    else nvmeDevices rest acc

/-- Per-device record building of `getNvmePcieLinkSpeed`: skip the device
when its sysfs address file is missing or unreadable; otherwise look in the
`lspci` output for the first line containing either (`"LnkSta:"` and
`"Speed"`) or `"Speed Downgraded"`, in that checking order. -/
def nvmeDeviceEntry (env : Env) (dev : String) : Except String (Option Record) :=
  match env.sysFile ("/sys/class/nvme/" ++ dev ++ "/address") with
  | none => Except.ok none
  | some content =>
  let bdf := pyStrip content
  let ls := env.lspci_vvvs bdf
  let lnkstaE : Except String String :=
    if ls.exitCode = 0 then
      match (pySplitlines ls.stdout).find? (fun l =>
          (pyContains l "LnkSta:" && pyContains l "Speed") || pyContains l "Speed Downgraded") with
      | some l =>
        if pyContains l "LnkSta:" && pyContains l "Speed" then
          match pySplitOnceAfter l ":" with
          | some a => Except.ok (pyStrip a)
          | none => Except.error "IndexError"
        else Except.ok "Speed Downgraded"
      | none => Except.ok "N/A"
    else Except.ok "N/A"
  match lnkstaE with
  | Except.error e => Except.error e
  | Except.ok lnksta =>
    Except.ok (some [("nvme", dev), ("busInfo", bdf), ("lnkSta", lnksta)])

/-- `getNvmePcieLinkSpeed()`. -/
def getNvmePcieLinkSpeed (env : Env) : Except String Resp :=
  let r := env.nvme_list
  if r.exitCode ≠ 0 then
    Except.ok (make_response 1002 (some []) (some ("nvme list failed: " ++ r.stderr)))
  else
    match nvmeDevices (pySplitlines r.stdout) [] with
    | Except.error e => Except.error e
    | Except.ok devices =>
      match collectEntries (nvmeDeviceEntry env) devices with
      | Except.error e => Except.error e
      | Except.ok data => Except.ok (make_response 0 (some data) none)

/- ========================================================================
   Rational model of the float pipeline (CPU / memory collectors)
   ======================================================================== -/

/-- Split off the leading run of decimal digits. -/
def takeDigits : List Char → List Char × List Char
  | [] => ([], [])
  | c :: rest =>
    if c.isDigit then
      let r := takeDigits rest
      (c :: r.1, r.2)
    else ([], c :: rest)

/-- An unnormalized fraction `num / den` with `den > 0` by construction: the
kernel-computable stand-in for a Python float value under the rational
semantics of this model. Fractions are never normalized (no gcd), so every
operation stays structurally computable. -/
structure PyFloat where
  num : Int
  den : Int
deriving Repr, DecidableEq

/-- Build a fraction, normalizing only the sign of the denominator. -/
def mkFrac (a b : Int) : PyFloat := if b < 0 then ⟨-a, -b⟩ else ⟨a, b⟩

/-- Python `float(s)` on the plain decimal grammar
`[+-]? (digits [. digits*] | . digits) ([eE] [+-]? digits)?` with surrounding
whitespace allowed, valued as an exact fraction. Underscore separators,
`inf`/`nan` and hex forms are outside the model (they never arise in the
claims under proof). -/
def parsePyFloat (s : String) : Option PyFloat :=
  let t := (pyStrip s).data
  let signRest : Int × List Char :=
    match t with
    | '-' :: r => (-1, r)
    | '+' :: r => (1, r)
    | _ => (1, t)
  let ipRest := takeDigits signRest.2
  let dotFrac : Bool × List Char × List Char :=
    match ipRest.2 with
    | '.' :: r2 =>
      let p := takeDigits r2
      (true, p.1, p.2)
    | _ => (false, [], ipRest.2)
  if ipRest.1.isEmpty && dotFrac.2.1.isEmpty then none
  else
    let mnum : Int := signRest.1 *
      ((digitsToNat ipRest.1 : Int) * ((10 ^ dotFrac.2.1.length : Nat) : Int) +
        (digitsToNat dotFrac.2.1 : Int))
    let mden : Int := ((10 ^ dotFrac.2.1.length : Nat) : Int)
    match dotFrac.2.2 with
    | [] => some ⟨mnum, mden⟩
    | 'e' :: r3 | 'E' :: r3 =>
      let esignRest : Bool × List Char :=
        match r3 with
        | '-' :: r4 => (true, r4)
        | '+' :: r4 => (false, r4)
        | _ => (false, r3)
      if esignRest.2.isEmpty then none
      else if !(esignRest.2.all Char.isDigit) then none
      else
        let e := digitsToNat esignRest.2
        some (if esignRest.1 then ⟨mnum, mden * ((10 ^ e : Nat) : Int)⟩
              else ⟨mnum * ((10 ^ e : Nat) : Int), mden⟩)
    | _ => none

/-- Round-half-even of the fraction `a / b` (with `b > 0`) to the nearest
integer. -/
def roundHalfEvenFrac (a b : Int) : Int :=
  let f := Int.ediv a b
  let r := a - f * b
  if 2 * r < b then f
  else if b < 2 * r then f + 1
  else if f % 2 = 0 then f else f + 1

/-- Python `f"{x:.1f}"` (and `str(round(x, 1))`) on the fraction model:
round-half-even to tenths and print with exactly one decimal digit (the sign
of a negative zero is not modelled). -/
def format1f (x : PyFloat) : String :=
  let k := roundHalfEvenFrac (x.num * 10) x.den
  let a := k.natAbs
  (if k < 0 then "-" else "") ++ toString (a / 10) ++ "." ++ toString (a % 10)

/- ========================================================================
   getCpuUsage / getMemoryUsage
   ======================================================================== -/

/-- `getCpuUsage()`: non-zero exit of the `top` pipeline gives 1002; an
unparsable usage number gives 1003; otherwise the single record with the
usage formatted to one decimal and the fixed threshold. -/
def getCpuUsage (env : Env) : Except String Resp :=
  let r := env.top_cpu
  if r.exitCode ≠ 0 then
    Except.ok (make_response 1002 (some []) (some ("top failed: " ++ r.stderr)))
  else
    match parsePyFloat (pyStrip r.stdout) with
    | none => Except.ok (make_response 1003 (some []) (some "Parse CPU usage failed"))
    | some x =>
      Except.ok (make_response 0
        (some [[("cpuUsage", format1f x), ("cpuThreshold", "80")]]) none)

/-- `getMemoryUsage()`: non-zero exit of `free -m` gives 1002; no line
starting with `"Mem:"` gives 1003 `"No Mem line"`; any exception inside the
parsing block (missing token, non-integer token, division by a zero total)
gives 1003 `"Parse error: …"`; otherwise the single record. The model keeps
the exception kind in place of Python `str(e)`. -/
def getMemoryUsage (env : Env) : Except String Resp :=
  let r := env.free_m
  if r.exitCode ≠ 0 then
    Except.ok (make_response 1002 (some []) (some ("free failed: " ++ r.stderr)))
  else
    match (pySplitlines r.stdout).find? (fun l => pyStartsWith l "Mem:") with
    | none => Except.ok (make_response 1003 (some []) (some "No Mem line"))
    | some line =>
      let parts := pySplitWs line
      match (parts.get? 1).bind pyInt with
      | none => Except.ok (make_response 1003 (some []) (some "Parse error: bad total"))
      | some total =>
        match (parts.get? 2).bind pyInt with
        | none => Except.ok (make_response 1003 (some []) (some "Parse error: bad used"))
        | some used =>
          let availOpt : Option Int :=
            if parts.length > 6 then (parts.get? 6).bind pyInt else some 0
          match availOpt with
          | none => Except.ok (make_response 1003 (some []) (some "Parse error: bad available"))
          | some available =>
            if total = 0 then
              Except.ok (make_response 1003 (some []) (some "Parse error: division by zero"))
            else
              Except.ok (make_response 0
                (some [[("memUsage", format1f (mkFrac (used * 100) total)),
                        ("memTotal", toString total),
                        ("memUsed", toString used),
                        ("memAvailable", toString available),
                        ("memThreshold", "80")]]) none)

/- ========================================================================
   Output-schema derivation (`_get_output_schema_for_data`)
   ======================================================================== -/

/-- A Python runtime value as it can appear in a record handed to the
response builder. -/
inductive PyVal where
  | vInt (n : Int)
  | vFloat (q : ℚ)
  | vBool (b : Bool)
  | vStr (s : String)
deriving DecidableEq, Repr

/-- Python `isinstance(value, (int, float))`: true for ints and floats — and
for booleans, because `bool` is a subclass of `int` in Python. -/
def isIntFloatInstance : PyVal → Bool
  | .vInt _ => true
  | .vFloat _ => true
  | .vBool _ => true
  | .vStr _ => false

/-- Python `isinstance(value, bool)`. -/
def isBoolInstance : PyVal → Bool
  | .vBool _ => true
  | _ => false

/-- The field classification of `ResponseBuilder._get_output_schema_for_data`
(`core/response_builder.py`), with its branch order: the `(int, float)`
check runs before the `bool` check. -/
def builderFieldType (v : PyVal) : String :=
  if isIntFloatInstance v then "number"
  else if isBoolInstance v then "boolean"
  else "string"

/-- A data record as passed to the response builder: insertion-ordered field
names mapped to Python values (the claim under examination presupposes the
first element of `data` is a dict, which this type makes structural). -/
def PyRecord := List (String × PyVal)
deriving DecidableEq, Repr

/-- The data-dependent part of a derived output schema: the
`data.items.properties` type assignments and the `data.items.required`
list. The static scaffold around them (top-level `required`,
`additionalProperties: false`, item `additionalProperties: true`) does not
depend on the data and is treated as constant. -/
structure ItemSchema where
  props : List (String × String)
  required : List String
deriving DecidableEq, Repr

/-- `ResponseBuilder._get_output_schema_for_data` of
`core/response_builder.py`, restricted to its data-dependent output: empty
data keeps the default empty item schema; otherwise each field of `data[0]`
is classified by `builderFieldType` and every key is required. -/
def builder_get_output_schema_items (data : List PyRecord) : ItemSchema :=
  match data with
  | [] => ⟨[], []⟩
  | sample :: _ =>
    ⟨sample.map (fun kv => (kv.1, builderFieldType kv.2)),
     sample.map (fun kv => kv.1)⟩

/-- `_get_output_schema_for_data` of `mcp_server_faultcheck.py`, restricted
to its data-dependent output: this version assigns the fixed type
`"string"` to every field of the sample. -/
def faultcheck_get_output_schema_items (data : List PyRecord) : ItemSchema :=
  match data with
  | [] => ⟨[], []⟩
  | sample :: _ =>
    ⟨sample.map (fun kv => (kv.1, "string")),
     sample.map (fun kv => kv.1)⟩

/- ========================================================================
   Basic lemmas about the embedding
   ======================================================================== -/

theorem except_ok_inj {α β : Type} {a b : β} (h : (Except.ok a : Except α β) = Except.ok b) :
    a = b := by
  cases h
  rfl

theorem str_append_ne_empty (s t : String) (h : s ≠ "") : s ++ t ≠ "" := by
  obtain ⟨l⟩ := s
  obtain ⟨m⟩ := t
  intro he
  apply h
  have hd : l ++ m = ([] : List Char) := congrArg String.data he
  rcases List.append_eq_nil.mp hd with ⟨h1, _⟩
  subst h1
  rfl

theorem make_response_code (c : Int) (d : Option (List Record)) (m : Option String) :
    (make_response c d m).code = c := rfl

theorem make_response_data (c : Int) (d : Option (List Record)) (m : Option String) :
    (make_response c d m).data = d.getD [] := rfl

theorem make_response_eq_of_ne (c : Int) (m : String) (h : m ≠ "") :
    make_response c (some []) (some m) = ⟨c, m, []⟩ := by
  simp [make_response, h]

/-- Every collector, on a non-zero exit of its prerequisite command, returns
the 1002 envelope with empty data; proved once per collector here and reused
by the claim theorems. -/
theorem arp_prereq_fail (env : Env) (h : env.ibdev2netdev.exitCode ≠ 0) :
    getArpConfig env =
      .ok ⟨1002, "ibdev2netdev failed: " ++ env.ibdev2netdev.stderr, []⟩ := by
  unfold getArpConfig
  rw [if_pos h, make_response_eq_of_ne _ _ (str_append_ne_empty _ _ (by decide))]

theorem lossless_prereq_fail (env : Env) (h : env.ibdev2netdev.exitCode ≠ 0) :
    getLosslessNetworkConfig env = .ok ⟨1002, "Failed to get IB interfaces", []⟩ := by
  unfold getLosslessNetworkConfig
  rw [if_pos h, make_response_eq_of_ne _ _ (by decide)]

theorem pcie_prereq_fail (env : Env) (h : env.ibdev2netdev.exitCode ≠ 0) :
    getPcieLinkSpeedForNic env = .ok ⟨1002, "No IB devices found", []⟩ := by
  unfold getPcieLinkSpeedForNic
  rw [if_pos h, make_response_eq_of_ne _ _ (by decide)]

theorem congestionTx_prereq_fail (env : Env) (h : env.ibdev2netdev.exitCode ≠ 0) :
    getNicCongestionStatsTx env = .ok ⟨1002, "No interfaces", []⟩ := by
  unfold getNicCongestionStatsTx
  rw [if_pos h, make_response_eq_of_ne _ _ (by decide)]

theorem congestionRx_prereq_fail (env : Env) (h : env.ibdev2netdev.exitCode ≠ 0) :
    getSwitchCongestionStatsRx env = .ok ⟨1002, "No interfaces", []⟩ := by
  unfold getSwitchCongestionStatsRx
  rw [if_pos h, make_response_eq_of_ne _ _ (by decide)]

theorem nvme_prereq_fail (env : Env) (h : env.nvme_list.exitCode ≠ 0) :
    getNvmePcieLinkSpeed env =
      .ok ⟨1002, "nvme list failed: " ++ env.nvme_list.stderr, []⟩ := by
  unfold getNvmePcieLinkSpeed
  rw [if_pos h, make_response_eq_of_ne _ _ (str_append_ne_empty _ _ (by decide))]

theorem cpu_prereq_fail (env : Env) (h : env.top_cpu.exitCode ≠ 0) :
    getCpuUsage env = .ok ⟨1002, "top failed: " ++ env.top_cpu.stderr, []⟩ := by
  unfold getCpuUsage
  rw [if_pos h, make_response_eq_of_ne _ _ (str_append_ne_empty _ _ (by decide))]

theorem mem_prereq_fail (env : Env) (h : env.free_m.exitCode ≠ 0) :
    getMemoryUsage env = .ok ⟨1002, "free failed: " ++ env.free_m.stderr, []⟩ := by
  unfold getMemoryUsage
  rw [if_pos h, make_response_eq_of_ne _ _ (str_append_ne_empty _ _ (by decide))]

/-- Branch analysis of `getArpConfig`: every returned envelope has code 0,
or an error code in {1002, 1003} with empty data. -/
theorem getArpConfig_cases (env : Env) (r : Resp) (h : getArpConfig env = .ok r) :
    r.code = 0 ∨ ((r.code = 1002 ∨ r.code = 1003) ∧ r.data = []) := by
  unfold getArpConfig at h
  dsimp only at h
  repeat' split at h
  all_goals (first
    | exact Except.noConfusion h
    | (cases except_ok_inj h; simp [make_response]))

theorem getLossless_cases (env : Env) (r : Resp) (h : getLosslessNetworkConfig env = .ok r) :
    r.code = 0 ∨ ((r.code = 1002 ∨ r.code = 1003) ∧ r.data = []) := by
  unfold getLosslessNetworkConfig at h
  dsimp only at h
  repeat' split at h
  all_goals (first
    | exact Except.noConfusion h
    | (cases except_ok_inj h; simp [make_response]))

theorem getPcie_cases (env : Env) (r : Resp) (h : getPcieLinkSpeedForNic env = .ok r) :
    r.code = 0 ∨ ((r.code = 1002 ∨ r.code = 1003) ∧ r.data = []) := by
  unfold getPcieLinkSpeedForNic at h
  dsimp only at h
  repeat' split at h
  all_goals (first
    | exact Except.noConfusion h
    | (cases except_ok_inj h; simp [make_response]))

theorem getCongestionTx_cases (env : Env) (r : Resp) (h : getNicCongestionStatsTx env = .ok r) :
    r.code = 0 ∨ ((r.code = 1002 ∨ r.code = 1003) ∧ r.data = []) := by
  unfold getNicCongestionStatsTx at h
  dsimp only at h
  repeat' split at h
  all_goals (first
    | exact Except.noConfusion h
    | (cases except_ok_inj h; simp [make_response]))

theorem getCongestionRx_cases (env : Env) (r : Resp) (h : getSwitchCongestionStatsRx env = .ok r) :
    r.code = 0 ∨ ((r.code = 1002 ∨ r.code = 1003) ∧ r.data = []) := by
  unfold getSwitchCongestionStatsRx at h
  dsimp only at h
  repeat' split at h
  all_goals (first
    | exact Except.noConfusion h
    | (cases except_ok_inj h; simp [make_response]))

theorem getNvme_cases (env : Env) (r : Resp) (h : getNvmePcieLinkSpeed env = .ok r) :
    r.code = 0 ∨ ((r.code = 1002 ∨ r.code = 1003) ∧ r.data = []) := by
  unfold getNvmePcieLinkSpeed at h
  dsimp only at h
  repeat' split at h
  all_goals (first
    | exact Except.noConfusion h
    | (cases except_ok_inj h; simp [make_response]))

theorem getCpu_cases (env : Env) (r : Resp) (h : getCpuUsage env = .ok r) :
    r.code = 0 ∨ ((r.code = 1002 ∨ r.code = 1003) ∧ r.data = []) := by
  unfold getCpuUsage at h
  dsimp only at h
  repeat' split at h
  all_goals (first
    | exact Except.noConfusion h
    | (cases except_ok_inj h; simp [make_response]))

theorem getMemory_cases (env : Env) (r : Resp) (h : getMemoryUsage env = .ok r) :
    r.code = 0 ∨ ((r.code = 1002 ∨ r.code = 1003) ∧ r.data = []) := by
  unfold getMemoryUsage at h
  dsimp only at h
  repeat' split at h
  all_goals (first
    | exact Except.noConfusion h
    | (cases except_ok_inj h; simp [make_response]))

/-- When the interface enumeration succeeded, `getArpConfig` either raises or
returns an envelope with code 0 — a per-entity failure never becomes a
whole-response error code. -/
theorem getArpConfig_enum_ok_code (env : Env) (r : Resp)
    (henum : env.ibdev2netdev.exitCode = 0) (h : getArpConfig env = .ok r) : r.code = 0 := by
  unfold getArpConfig at h
  dsimp only at h
  rw [if_neg (by simp [henum])] at h
  split at h
  · exact Except.noConfusion h
  · cases except_ok_inj h
    rfl

theorem getLossless_enum_ok_code (env : Env) (r : Resp)
    (henum : env.ibdev2netdev.exitCode = 0) (h : getLosslessNetworkConfig env = .ok r) :
    r.code = 0 := by
  unfold getLosslessNetworkConfig at h
  dsimp only at h
  rw [if_neg (by simp [henum])] at h
  split at h
  · exact Except.noConfusion h
  · cases except_ok_inj h
    rfl

theorem getPcie_enum_ok_code (env : Env) (r : Resp)
    (henum : env.ibdev2netdev.exitCode = 0) (h : getPcieLinkSpeedForNic env = .ok r) :
    r.code = 0 := by
  unfold getPcieLinkSpeedForNic at h
  dsimp only at h
  rw [if_neg (by simp [henum])] at h
  split at h
  · exact Except.noConfusion h
  · cases except_ok_inj h
    rfl
theorem collectEntries_all_skip (f : String → Except String (Option Record))
    (ls : List String) (h : ∀ l ∈ ls, f l = .ok none) :
    collectEntries f ls = .ok [] := by
  induction ls with
  | nil => rfl
  | cons a as ih =>
    have ha := h a (List.mem_cons_self a as)
    have iha := ih (fun l hl => h l (List.mem_cons_of_mem a hl))
    simp [collectEntries, ha, iha]

theorem collectEntries_skip_middle (f : String → Except String (Option Record))
    (bad : String) (hbad : f bad = .ok none) (pre post : List String) :
    collectEntries f (pre ++ bad :: post) = collectEntries f (pre ++ post) := by
  induction pre with
  | nil =>
    cases hc : collectEntries f post <;> simp [collectEntries, hbad, hc]
  | cons a as ih =>
    simp only [List.cons_append, collectEntries, List.append_eq, ih]

theorem arpLineEntry_skip (env : Env) (bad : String)
    (hbad : (pySplitOn bad " ==> ").length ≠ 2) : arpLineEntry env bad = .ok none := by
  unfold arpLineEntry
  dsimp only
  rw [if_pos hbad]

theorem pcieNicLineEntry_skip (env : Env) (bad : String)
    (hbad : (pySplitOn bad " ==> ").length ≠ 2) : pcieNicLineEntry env bad = .ok none := by
  unfold pcieNicLineEntry
  dsimp only
  rw [if_pos hbad]

theorem arpLineEntry_sysctl_fail (env : Env) (line iface : String)
    (h2 : (pySplitOn line " ==> ").length = 2)
    (h3 : (pySplitWs ((pySplitOn line " ==> ").getD 1 "")).head? = some iface)
    (hs : env.sysctl_a.exitCode ≠ 0) :
    arpLineEntry env line =
      .ok (some (("interface", iface) :: keys_map.map (fun kv => (kv.2, "")))) := by
  unfold arpLineEntry
  dsimp only
  rw [if_neg (by simp [h2]), h3]
  dsimp only
  have : (fun kv : String × String => (kv.2, arpSysctlValue env iface kv.1)) =
      (fun kv : String × String => (kv.2, "")) := by
    funext kv
    simp [arpSysctlValue, hs]
  rw [this]

theorem pfcFields_mlnx_fail (env : Env) (iface : String)
    (hm : (env.mlnx_qos iface).exitCode ≠ 0) :
    pfcFields env iface = [("pfcPriority", ""), ("pfcTrust", ""), ("pfcTsa", "")] := by
  unfold pfcFields
  dsimp only
  rw [if_neg hm]

theorem losslessLineEntry_mlnx_fail (env : Env) (line iface device : String)
    (h2 : (pySplitOn line " ==> ").length = 2)
    (h3 : (pySplitWs ((pySplitOn line " ==> ").getD 1 "")).head? = some iface)
    (h4 : (pySplitWs ((pySplitOn line " ==> ").getD 0 "")).head? = some device)
    (hm : (env.mlnx_qos iface).exitCode ≠ 0) :
    losslessLineEntry env line =
      .ok (some [("interface", iface), ("pfcPriority", ""), ("pfcTrust", ""),
                 ("pfcTsa", ""), ("ecnEnable", ecnValue env device)]) := by
  unfold losslessLineEntry
  dsimp only
  rw [if_neg (by simp [h2]), h3]
  dsimp only
  rw [h4]
  dsimp only
  rw [pfcFields_mlnx_fail env iface hm]
  rfl

theorem pcieBdf_ethtool_fail (env : Env) (iface : String)
    (he : (env.ethtool_i iface).exitCode ≠ 0) : pcieBdf env iface = .ok "" := by
  unfold pcieBdf
  dsimp only
  rw [if_neg he]

theorem pcieNicLineEntry_ethtool_fail (env : Env) (line iface : String)
    (h2 : (pySplitOn line " ==> ").length = 2)
    (h3 : (pySplitWs ((pySplitOn line " ==> ").getD 1 "")).head? = some iface)
    (he : (env.ethtool_i iface).exitCode ≠ 0) :
    pcieNicLineEntry env line = .ok none := by
  unfold pcieNicLineEntry
  dsimp only
  rw [if_neg (by simp [h2]), h3]
  dsimp only
  rw [pcieBdf_ethtool_fail env iface he]
  rfl

theorem pcieLnkSta_lspci_fail (env : Env) (bdf : String)
    (hl : (env.lspci_vvvs bdf).exitCode ≠ 0) : pcieLnkSta env bdf = .ok "N/A" := by
  unfold pcieLnkSta
  dsimp only
  rw [if_neg hl]

theorem pcieNicLineEntry_lspci_fail (env : Env) (line iface bdf : String)
    (h2 : (pySplitOn line " ==> ").length = 2)
    (h3 : (pySplitWs ((pySplitOn line " ==> ").getD 1 "")).head? = some iface)
    (hb : pcieBdf env iface = .ok bdf) (hbne : bdf ≠ "")
    (hl : (env.lspci_vvvs bdf).exitCode ≠ 0) :
    pcieNicLineEntry env line =
      .ok (some [("interface", iface), ("busInfo", bdf), ("lnkSta", "N/A")]) := by
  unfold pcieNicLineEntry
  dsimp only
  rw [if_neg (by simp [h2]), h3]
  dsimp only
  rw [hb]
  dsimp only
  rw [if_neg hbne, pcieLnkSta_lspci_fail env bdf hl]

theorem congestionLineEntry_ethtool_fail (env : Env) (sk fn line iface : String)
    (h2 : (pySplitOn line " ==> ").length = 2)
    (h3 : (pySplitWs ((pySplitOn line " ==> ").getD 1 "")).head? = some iface)
    (he : (env.ethtool_S iface).exitCode ≠ 0) :
    congestionLineEntry env sk fn line = .ok (some [("interface", iface), (fn, "0")]) := by
  unfold congestionLineEntry
  dsimp only
  rw [if_neg (by simp [h2]), h3]
  dsimp only
  rw [if_neg he]

theorem code_range_of_cases {r : Resp}
    (h : r.code = 0 ∨ ((r.code = 1002 ∨ r.code = 1003) ∧ r.data = [])) :
    r.code = 0 ∨ r.code = 1002 ∨ r.code = 1003 := by tauto

theorem data_empty_of_cases {r : Resp}
    (h : r.code = 0 ∨ ((r.code = 1002 ∨ r.code = 1003) ∧ r.data = []))
    (hne : r.code ≠ 0) : r.data = [] := by tauto

theorem arp_zero_match (env : Env) (h0 : env.ibdev2netdev.exitCode = 0)
    (hall : ∀ l ∈ pySplitlines env.ibdev2netdev.stdout, (pySplitOn l " ==> ").length ≠ 2) :
    getArpConfig env = .ok ⟨0, "success", []⟩ := by
  unfold getArpConfig
  dsimp only
  rw [if_neg (by simp [h0]),
      collectEntries_all_skip _ _ (fun l hl => arpLineEntry_skip env l (hall l hl))]
  rfl

theorem pcie_zero_match (env : Env) (h0 : env.ibdev2netdev.exitCode = 0)
    (hall : ∀ l ∈ pySplitlines env.ibdev2netdev.stdout, (pySplitOn l " ==> ").length ≠ 2) :
    getPcieLinkSpeedForNic env = .ok ⟨0, "success", []⟩ := by
  unfold getPcieLinkSpeedForNic
  dsimp only
  rw [if_neg (by simp [h0]),
      collectEntries_all_skip _ _ (fun l hl => pcieNicLineEntry_skip env l (hall l hl))]
  rfl

theorem losslessLineEntry_skip (env : Env) (bad : String)
    (hbad : (pySplitOn bad " ==> ").length ≠ 2) : losslessLineEntry env bad = .ok none := by
  unfold losslessLineEntry
  dsimp only
  rw [if_pos hbad]

theorem congestionLineEntry_skip (env : Env) (sk fn bad : String)
    (hbad : (pySplitOn bad " ==> ").length ≠ 2) :
    congestionLineEntry env sk fn bad = .ok none := by
  unfold congestionLineEntry
  dsimp only
  rw [if_pos hbad]

theorem lossless_zero_match (env : Env) (h0 : env.ibdev2netdev.exitCode = 0)
    (hall : ∀ l ∈ pySplitlines env.ibdev2netdev.stdout, (pySplitOn l " ==> ").length ≠ 2) :
    getLosslessNetworkConfig env = .ok ⟨0, "success", []⟩ := by
  unfold getLosslessNetworkConfig
  dsimp only
  rw [if_neg (by simp [h0]),
      collectEntries_all_skip _ _ (fun l hl => losslessLineEntry_skip env l (hall l hl))]
  rfl

theorem congestionTx_zero_match (env : Env) (h0 : env.ibdev2netdev.exitCode = 0)
    (hall : ∀ l ∈ pySplitlines env.ibdev2netdev.stdout, (pySplitOn l " ==> ").length ≠ 2) :
    getNicCongestionStatsTx env = .ok ⟨0, "success", []⟩ := by
  unfold getNicCongestionStatsTx
  dsimp only
  rw [if_neg (by simp [h0]),
      collectEntries_all_skip _ _ (fun l hl => congestionLineEntry_skip env _ _ l (hall l hl))]
  rfl

theorem congestionRx_zero_match (env : Env) (h0 : env.ibdev2netdev.exitCode = 0)
    (hall : ∀ l ∈ pySplitlines env.ibdev2netdev.stdout, (pySplitOn l " ==> ").length ≠ 2) :
    getSwitchCongestionStatsRx env = .ok ⟨0, "success", []⟩ := by
  unfold getSwitchCongestionStatsRx
  dsimp only
  rw [if_neg (by simp [h0]),
      collectEntries_all_skip _ _ (fun l hl => congestionLineEntry_skip env _ _ l (hall l hl))]
  rfl

theorem mem_noMemLine (env : Env) (h0 : env.free_m.exitCode = 0)
    (hall : ∀ l ∈ pySplitlines env.free_m.stdout, pyStartsWith l "Mem:" = false) :
    getMemoryUsage env = .ok ⟨1003, "No Mem line", []⟩ := by
  unfold getMemoryUsage
  dsimp only
  rw [if_neg (by simp [h0]), List.find?_eq_none.mpr (by intro l hl; simp [hall l hl])]
  rfl

theorem cpu_parse_17 (env : Env) (h0 : env.top_cpu.exitCode = 0)
    (hs : env.top_cpu.stdout = "1.7") :
    getCpuUsage env = .ok ⟨0, "success", [[("cpuUsage", "1.7"), ("cpuThreshold", "80")]]⟩ := by
  unfold getCpuUsage
  dsimp only
  rw [if_neg (by simp [h0]), hs]
  rfl

/- ========================================================================
   Concrete environments used by witnesses and counterexamples
   ======================================================================== -/

def envC1 : Env := { Env.default with
  ibdev2netdev := ⟨"", "boom", 1⟩
  nvme_list := ⟨"", "nerr", 1⟩
  top_cpu := ⟨"", "terr", 1⟩
  free_m := ⟨"", "ferr", 1⟩ }

def envC2 : Env := { Env.default with ibdev2netdev := ⟨"no ib devices found", "", 0⟩ }

def envC3a : Env := { Env.default with
  ibdev2netdev := ⟨"mlx5_0 port 1 ==> ib0 (Up)", "", 0⟩
  sysctl_a := ⟨"", "sysctl failed", 1⟩
  mlnx_qos := fun _ => ⟨"", "mlnx_qos failed", 1⟩
  ethtool_i := fun _ => ⟨"", "ethtool failed", 1⟩
  ethtool_S := fun _ => ⟨"", "ethtool failed", 1⟩ }

def envC3b : Env := { Env.default with
  ibdev2netdev := ⟨"mlx5_0 port 1 ==> ib0 (Up)", "", 0⟩
  ethtool_i := fun _ => ⟨"driver: mlx5_core\nbus-info: 0000:9b:00.0", "", 0⟩
  lspci_vvvs := fun _ => ⟨"", "lspci failed", 1⟩ }

def envC9 : Env := { Env.default with
  free_m := ⟨"              total        used        free", "", 0⟩
  top_cpu := ⟨"1.7", "", 0⟩ }

/- ========================================================================
   Claims
   ======================================================================== -/

/-- C1: for every collector, if the prerequisite enumeration command returns
a non-zero exit code, the returned envelope has code COMMAND_EXECUTION_FAILED
(1002) and data equal to the empty list; in particular, when ibdev2netdev
fails, getArpConfig returns code 1002 with a message embedding the captured
stderr and data []. -/
theorem C1_prereq_failure_envelope (env : Env) :
    (env.ibdev2netdev.exitCode ≠ 0 →
      getArpConfig env =
        .ok ⟨1002, "ibdev2netdev failed: " ++ env.ibdev2netdev.stderr, []⟩ ∧
      getLosslessNetworkConfig env = .ok ⟨1002, "Failed to get IB interfaces", []⟩ ∧
      getPcieLinkSpeedForNic env = .ok ⟨1002, "No IB devices found", []⟩ ∧
      getNicCongestionStatsTx env = .ok ⟨1002, "No interfaces", []⟩ ∧
      getSwitchCongestionStatsRx env = .ok ⟨1002, "No interfaces", []⟩) ∧
    (env.nvme_list.exitCode ≠ 0 →
      getNvmePcieLinkSpeed env =
        .ok ⟨1002, "nvme list failed: " ++ env.nvme_list.stderr, []⟩) ∧
    (env.top_cpu.exitCode ≠ 0 →
      getCpuUsage env = .ok ⟨1002, "top failed: " ++ env.top_cpu.stderr, []⟩) ∧
    (env.free_m.exitCode ≠ 0 →
      getMemoryUsage env = .ok ⟨1002, "free failed: " ++ env.free_m.stderr, []⟩) :=
  ⟨fun h => ⟨arp_prereq_fail env h, lossless_prereq_fail env h, pcie_prereq_fail env h,
    congestionTx_prereq_fail env h, congestionRx_prereq_fail env h⟩,
   fun h => nvme_prereq_fail env h,
   fun h => cpu_prereq_fail env h,
   fun h => mem_prereq_fail env h⟩

theorem C1_prereq_failure_envelope_witness :
    envC1.ibdev2netdev.exitCode ≠ 0 ∧
    getArpConfig envC1 = .ok ⟨1002, "ibdev2netdev failed: boom", []⟩ ∧
    getNvmePcieLinkSpeed envC1 = .ok ⟨1002, "nvme list failed: nerr", []⟩ ∧
    getCpuUsage envC1 = .ok ⟨1002, "top failed: terr", []⟩ ∧
    getMemoryUsage envC1 = .ok ⟨1002, "free failed: ferr", []⟩ :=
  ⟨by decide,
   ((C1_prereq_failure_envelope envC1).1 (by decide)).1,
   (C1_prereq_failure_envelope envC1).2.1 (by decide),
   (C1_prereq_failure_envelope envC1).2.2.1 (by decide),
   (C1_prereq_failure_envelope envC1).2.2.2 (by decide)⟩

/-- C2 counterexample: `ibdev2netdev` succeeds but its output has zero lines
of the `<device> ==> <interface>` shape, and `getArpConfig` (likewise
`getPcieLinkSpeedForNic`) returns code 0 with empty data — not
DEVICE_NOT_AVAILABLE (1005) as the claim states. -/
theorem C2_counterexample_zero_match_code0 :
    envC2.ibdev2netdev.exitCode = 0 ∧
    (∀ l ∈ pySplitlines envC2.ibdev2netdev.stdout, (pySplitOn l " ==> ").length ≠ 2) ∧
    getArpConfig envC2 = .ok ⟨0, "success", []⟩ ∧
    getPcieLinkSpeedForNic envC2 = .ok ⟨0, "success", []⟩ ∧
    ((0 : Int) ≠ 1005) := by decide

/-- C2 (amended): for every interface-based collector — getArpConfig,
getLosslessNetworkConfig, getPcieLinkSpeedForNic, getNicCongestionStatsTx
and getSwitchCongestionStatsRx — if the enumeration command succeeds but its
output contains zero lines matching the `<device> ==> <interface>` shape,
the returned envelope has code SUCCESS (0) with empty data (a
DEVICE_NOT_AVAILABLE envelope is never produced); and a single non-matching
line among matching ones is silently skipped by each of their per-line entry
builders and is not an error. -/
theorem C2_amended_zero_match_success (env : Env) :
    (env.ibdev2netdev.exitCode = 0 →
      (∀ l ∈ pySplitlines env.ibdev2netdev.stdout, (pySplitOn l " ==> ").length ≠ 2) →
      getArpConfig env = .ok ⟨0, "success", []⟩ ∧
      getLosslessNetworkConfig env = .ok ⟨0, "success", []⟩ ∧
      getPcieLinkSpeedForNic env = .ok ⟨0, "success", []⟩ ∧
      getNicCongestionStatsTx env = .ok ⟨0, "success", []⟩ ∧
      getSwitchCongestionStatsRx env = .ok ⟨0, "success", []⟩) ∧
    (∀ pre post bad, (pySplitOn bad " ==> ").length ≠ 2 →
      collectEntries (arpLineEntry env) (pre ++ bad :: post) =
        collectEntries (arpLineEntry env) (pre ++ post) ∧
      collectEntries (losslessLineEntry env) (pre ++ bad :: post) =
        collectEntries (losslessLineEntry env) (pre ++ post) ∧
      collectEntries (pcieNicLineEntry env) (pre ++ bad :: post) =
        collectEntries (pcieNicLineEntry env) (pre ++ post) ∧
      (∀ sk fn, collectEntries (congestionLineEntry env sk fn) (pre ++ bad :: post) =
        collectEntries (congestionLineEntry env sk fn) (pre ++ post))) := by
  constructor
  · intro h0 hall
    exact ⟨arp_zero_match env h0 hall, lossless_zero_match env h0 hall,
           pcie_zero_match env h0 hall, congestionTx_zero_match env h0 hall,
           congestionRx_zero_match env h0 hall⟩
  · intro pre post bad hbad
    exact ⟨collectEntries_skip_middle _ bad (arpLineEntry_skip env bad hbad) pre post,
           collectEntries_skip_middle _ bad (losslessLineEntry_skip env bad hbad) pre post,
           collectEntries_skip_middle _ bad (pcieNicLineEntry_skip env bad hbad) pre post,
           fun sk fn =>
             collectEntries_skip_middle _ bad (congestionLineEntry_skip env sk fn bad hbad)
               pre post⟩

theorem C2_amended_zero_match_success_witness :
    (getArpConfig envC2 = .ok ⟨0, "success", []⟩ ∧
     getLosslessNetworkConfig envC2 = .ok ⟨0, "success", []⟩ ∧
     getPcieLinkSpeedForNic envC2 = .ok ⟨0, "success", []⟩ ∧
     getNicCongestionStatsTx envC2 = .ok ⟨0, "success", []⟩ ∧
     getSwitchCongestionStatsRx envC2 = .ok ⟨0, "success", []⟩) ∧
    collectEntries (arpLineEntry envC2) (["a ==> b"] ++ "junk line" :: []) =
      collectEntries (arpLineEntry envC2) (["a ==> b"] ++ []) ∧
    collectEntries (losslessLineEntry envC2) (["a ==> b"] ++ "junk line" :: []) =
      collectEntries (losslessLineEntry envC2) (["a ==> b"] ++ []) ∧
    collectEntries (congestionLineEntry envC2 "tx_pause_ctrl_phy" "txPauseCtrlPhy")
        (["a ==> b"] ++ "junk line" :: []) =
      collectEntries (congestionLineEntry envC2 "tx_pause_ctrl_phy" "txPauseCtrlPhy")
        (["a ==> b"] ++ []) :=
  ⟨(C2_amended_zero_match_success envC2).1 (by decide) (by decide),
   ((C2_amended_zero_match_success envC2).2 ["a ==> b"] [] "junk line" (by decide)).1,
   ((C2_amended_zero_match_success envC2).2 ["a ==> b"] [] "junk line" (by decide)).2.1,
   ((C2_amended_zero_match_success envC2).2 ["a ==> b"] [] "junk line" (by decide)).2.2.2
     "tx_pause_ctrl_phy" "txPauseCtrlPhy"⟩

/-- C3 counterexample: in `getPcieLinkSpeedForNic`, one interface is
enumerated (the line matches the shape), the secondary `ethtool -i` command
fails, and the resulting data list is empty — the entity was dropped instead
of yielding a record with empty-string fields. -/
theorem C3_counterexample_entity_dropped :
    envC3a.ibdev2netdev.exitCode = 0 ∧
    (pySplitOn "mlx5_0 port 1 ==> ib0 (Up)" " ==> ").length = 2 ∧
    (envC3a.ethtool_i "ib0").exitCode ≠ 0 ∧
    getPcieLinkSpeedForNic envC3a = .ok ⟨0, "success", []⟩ := by decide

/-- C3 (amended): a failing secondary command never becomes a whole-response
error code, and in `getArpConfig` (sysctl) and `getLosslessNetworkConfig`
(mlnx_qos) it yields empty-string fields for that entity, which is kept; but
the entity IS dropped in `getPcieLinkSpeedForNic` when `ethtool -i` fails or
yields no bus-info (its lspci failure instead keeps the entity with lnkSta
"N/A", not an empty string), and the congestion collectors keep the entity
with the default value "0". -/
theorem C3_amended_secondary_failures (env : Env) (line iface device bdf : String) (r : Resp) :
    ((pySplitOn line " ==> ").length = 2 →
     (pySplitWs ((pySplitOn line " ==> ").getD 1 "")).head? = some iface →
     ((env.sysctl_a.exitCode ≠ 0 →
        arpLineEntry env line =
          .ok (some (("interface", iface) :: keys_map.map (fun kv => (kv.2, ""))))) ∧
      ((pySplitWs ((pySplitOn line " ==> ").getD 0 "")).head? = some device →
        (env.mlnx_qos iface).exitCode ≠ 0 →
        losslessLineEntry env line =
          .ok (some [("interface", iface), ("pfcPriority", ""), ("pfcTrust", ""),
                     ("pfcTsa", ""), ("ecnEnable", ecnValue env device)])) ∧
      ((env.ethtool_i iface).exitCode ≠ 0 → pcieNicLineEntry env line = .ok none) ∧
      (pcieBdf env iface = .ok bdf → bdf ≠ "" → (env.lspci_vvvs bdf).exitCode ≠ 0 →
        pcieNicLineEntry env line =
          .ok (some [("interface", iface), ("busInfo", bdf), ("lnkSta", "N/A")])) ∧
      (∀ sk fn, (env.ethtool_S iface).exitCode ≠ 0 →
        congestionLineEntry env sk fn line = .ok (some [("interface", iface), (fn, "0")])))) ∧
    (env.ibdev2netdev.exitCode = 0 →
      ((getArpConfig env = .ok r → r.code = 0) ∧
       (getLosslessNetworkConfig env = .ok r → r.code = 0) ∧
       (getPcieLinkSpeedForNic env = .ok r → r.code = 0))) := by
  constructor
  · intro h2 h3
    refine ⟨fun hs => arpLineEntry_sysctl_fail env line iface h2 h3 hs,
            fun h4 hm => losslessLineEntry_mlnx_fail env line iface device h2 h3 h4 hm,
            fun he => pcieNicLineEntry_ethtool_fail env line iface h2 h3 he,
            fun hb hbne hl => pcieNicLineEntry_lspci_fail env line iface bdf h2 h3 hb hbne hl,
            fun sk fn he => congestionLineEntry_ethtool_fail env sk fn line iface h2 h3 he⟩
  · intro h0
    exact ⟨getArpConfig_enum_ok_code env r h0,
           getLossless_enum_ok_code env r h0,
           getPcie_enum_ok_code env r h0⟩

theorem C3_amended_secondary_failures_witness :
    arpLineEntry envC3a "mlx5_0 port 1 ==> ib0 (Up)" =
      .ok (some [("interface", "ib0"), ("disableIpv6", ""), ("arpIgnore", ""),
                 ("arpAnnounce", ""), ("rpFilter", ""), ("arpFilter", ""),
                 ("arpNotify", ""), ("arpAccept", "")]) ∧
    losslessLineEntry envC3a "mlx5_0 port 1 ==> ib0 (Up)" =
      .ok (some [("interface", "ib0"), ("pfcPriority", ""), ("pfcTrust", ""),
                 ("pfcTsa", ""), ("ecnEnable", "00")]) ∧
    pcieNicLineEntry envC3a "mlx5_0 port 1 ==> ib0 (Up)" = .ok none ∧
    pcieNicLineEntry envC3b "mlx5_0 port 1 ==> ib0 (Up)" =
      .ok (some [("interface", "ib0"), ("busInfo", "0000:9b:00.0"), ("lnkSta", "N/A")]) ∧
    congestionLineEntry envC3a "tx_pause_ctrl_phy" "txPauseCtrlPhy" "mlx5_0 port 1 ==> ib0 (Up)" =
      .ok (some [("interface", "ib0"), ("txPauseCtrlPhy", "0")]) ∧
    (getArpConfig envC3a = .ok ⟨0, "success",
        [[("interface", "ib0"), ("disableIpv6", ""), ("arpIgnore", ""),
          ("arpAnnounce", ""), ("rpFilter", ""), ("arpFilter", ""),
          ("arpNotify", ""), ("arpAccept", "")]]⟩ →
      Resp.code ⟨0, "success",
        [[("interface", "ib0"), ("disableIpv6", ""), ("arpIgnore", ""),
          ("arpAnnounce", ""), ("rpFilter", ""), ("arpFilter", ""),
          ("arpNotify", ""), ("arpAccept", "")]]⟩ = 0) :=
  ⟨(((C3_amended_secondary_failures envC3a "mlx5_0 port 1 ==> ib0 (Up)" "ib0" "mlx5_0" ""
        ⟨0, "success", []⟩).1 (by decide) (by decide)).1 (by decide)),
   (((C3_amended_secondary_failures envC3a "mlx5_0 port 1 ==> ib0 (Up)" "ib0" "mlx5_0" ""
        ⟨0, "success", []⟩).1 (by decide) (by decide)).2.1 (by decide) (by decide)),
   (((C3_amended_secondary_failures envC3a "mlx5_0 port 1 ==> ib0 (Up)" "ib0" "mlx5_0" ""
        ⟨0, "success", []⟩).1 (by decide) (by decide)).2.2.1 (by decide)),
   (((C3_amended_secondary_failures envC3b "mlx5_0 port 1 ==> ib0 (Up)" "ib0" "mlx5_0"
        "0000:9b:00.0" ⟨0, "success", []⟩).1 (by decide) (by decide)).2.2.2.1
      (by decide) (by decide) (by decide)),
   (((C3_amended_secondary_failures envC3a "mlx5_0 port 1 ==> ib0 (Up)" "ib0" "mlx5_0" ""
        ⟨0, "success", []⟩).1 (by decide) (by decide)).2.2.2.2 "tx_pause_ctrl_phy"
      "txPauseCtrlPhy" (by decide)),
   (((C3_amended_secondary_failures envC3a "mlx5_0 port 1 ==> ib0 (Up)" "ib0" "mlx5_0" ""
        ⟨0, "success",
          [[("interface", "ib0"), ("disableIpv6", ""), ("arpIgnore", ""),
            ("arpAnnounce", ""), ("rpFilter", ""), ("arpFilter", ""),
            ("arpNotify", ""), ("arpAccept", "")]]⟩).2 (by decide)).1)⟩

/-- C4 counterexample: the ResponseBuilder schema derivation classifies a
boolean sample value as "number" (because Python `bool` is a subclass of
`int` and the `(int, float)` branch runs first), not "boolean"; and the
single-file server version classifies the claims own sample
`[{"a": 1, "b": "x"}]` as all-"string", so `a` is not marked as number
there. -/
theorem C4_counterexample_boolean_as_number :
    builderFieldType (.vBool true) = "number" ∧
    (("number" : String) ≠ "boolean") ∧
    faultcheck_get_output_schema_items [[("a", .vInt 1), ("b", .vStr "x")]] =
      ⟨[("a", "string"), ("b", "string")], ["a", "b"]⟩ ∧
    (("string" : String) ≠ "number") := by decide

/-- C4 (amended): for a non-empty data list whose first record is a dict,
the ResponseBuilder version classifies each sample field as "number" when
the value is an int, a float, or a boolean (the dedicated boolean branch is
unreachable since `bool` is a Python subclass of `int`), and "string"
otherwise; the single-file server version classifies every field as
"string"; both require every key of the sample; in particular for
`data = [{"a": 1, "b": "x"}]` the ResponseBuilder schema marks `a` as number
and `b` as string, both required. -/
theorem C4_amended_schema_classification (sample : PyRecord) (rest : List PyRecord) :
    builder_get_output_schema_items (sample :: rest) =
      ⟨sample.map (fun kv => (kv.1, if isIntFloatInstance kv.2 then "number" else "string")),
       sample.map (fun kv => kv.1)⟩ ∧
    faultcheck_get_output_schema_items (sample :: rest) =
      ⟨sample.map (fun kv => (kv.1, "string")), sample.map (fun kv => kv.1)⟩ ∧
    builder_get_output_schema_items [[("a", .vInt 1), ("b", .vStr "x")]] =
      ⟨[("a", "number"), ("b", "string")], ["a", "b"]⟩ := by
  refine ⟨?_, rfl, by decide⟩
  have hfun : (fun kv : String × PyVal => (kv.1, builderFieldType kv.2)) =
      (fun kv : String × PyVal =>
        (kv.1, if isIntFloatInstance kv.2 then "number" else "string")) := by
    funext kv
    obtain ⟨k, v⟩ := kv
    cases v <;> rfl
  simp [builder_get_output_schema_items, hfun]

/-- C5: on timeout the command runner returns the CommandResult
`("", "Command timeout after Ns", -1)` — empty stdout, a stderr containing
the timeout marker, exit code -1 — and the owning collector maps this result
to COMMAND_EXECUTION_FAILED (1002). -/
theorem C5_timeout_result (t : Nat) (env : Env) :
    CommandExecutor.execute t .timedOut =
      ⟨"", "Command timeout after " ++ toString t ++ "s", -1⟩ ∧
    (∃ pre post, ("Command timeout after " ++ toString t ++ "s").data =
      pre ++ ("timeout").data ++ post) ∧
    (env.ibdev2netdev = CommandExecutor.execute t .timedOut →
      getArpConfig env =
        .ok ⟨1002, "ibdev2netdev failed: " ++ env.ibdev2netdev.stderr, []⟩) := by
  refine ⟨rfl, ⟨("Command ").data, (" after " ++ toString t ++ "s").data, ?_⟩, ?_⟩
  · have hlit : ("Command timeout after ").data =
        ("Command ").data ++ ("timeout").data ++ (" after ").data := by decide
    simp [String.data_append, hlit, List.append_assoc]
  · intro h
    apply arp_prereq_fail env
    rw [h]
    show (-1 : Int) ≠ 0
    decide

def envC5 : Env := { Env.default with ibdev2netdev := CommandExecutor.execute 3 .timedOut }

theorem C5_timeout_result_witness :
    CommandExecutor.execute 3 .timedOut = ⟨"", "Command timeout after 3s", -1⟩ ∧
    getArpConfig envC5 = .ok ⟨1002, "ibdev2netdev failed: Command timeout after 3s", []⟩ :=
  ⟨(C5_timeout_result 3 envC5).1, (C5_timeout_result 3 envC5).2.2 rfl⟩

/-- C6: the command runner is total — every outcome yields a CommandResult
instead of an exception (the embedding is a total function); a timeout or any
other exception is returned as exit code -1, empty stdout and the exception
description in stderr, while normal completion returns the trimmed
stdout/stderr of the process together with its real exit code, non-zero or
not. -/
theorem C6_executor_never_raises (t : Nat) (out err msg : String) (rc : Int) :
    CommandExecutor.execute t (.completed out err rc) = ⟨pyStrip out, pyStrip err, rc⟩ ∧
    CommandExecutor.execute t .timedOut =
      ⟨"", "Command timeout after " ++ toString t ++ "s", -1⟩ ∧
    (CommandExecutor.execute t .timedOut).exitCode = -1 ∧
    CommandExecutor.execute t (.failed msg) =
      ⟨"", "Command execution failed: " ++ msg, -1⟩ ∧
    (CommandExecutor.execute t (.failed msg)).exitCode = -1 ∧
    (CommandExecutor.execute t (.failed msg)).stdout = "" :=
  ⟨rfl, rfl, rfl, rfl, rfl, rfl⟩

/-- C7: the response builder always produces a list-valued data field (a
`None` data argument becomes `[]`), and every envelope a collector returns
with a non-SUCCESS code carries the empty data list, never a partially
populated one. -/
theorem C7_error_data_empty (env : Env) (r : Resp) :
    (∀ (code : Int) (m : Option String), (make_response code none m).data = []) ∧
    (getArpConfig env = .ok r → r.code ≠ 0 → r.data = []) ∧
    (getLosslessNetworkConfig env = .ok r → r.code ≠ 0 → r.data = []) ∧
    (getPcieLinkSpeedForNic env = .ok r → r.code ≠ 0 → r.data = []) ∧
    (getNicCongestionStatsTx env = .ok r → r.code ≠ 0 → r.data = []) ∧
    (getSwitchCongestionStatsRx env = .ok r → r.code ≠ 0 → r.data = []) ∧
    (getNvmePcieLinkSpeed env = .ok r → r.code ≠ 0 → r.data = []) ∧
    (getCpuUsage env = .ok r → r.code ≠ 0 → r.data = []) ∧
    (getMemoryUsage env = .ok r → r.code ≠ 0 → r.data = []) :=
  ⟨fun _ _ => rfl,
   fun h => data_empty_of_cases (getArpConfig_cases env r h),
   fun h => data_empty_of_cases (getLossless_cases env r h),
   fun h => data_empty_of_cases (getPcie_cases env r h),
   fun h => data_empty_of_cases (getCongestionTx_cases env r h),
   fun h => data_empty_of_cases (getCongestionRx_cases env r h),
   fun h => data_empty_of_cases (getNvme_cases env r h),
   fun h => data_empty_of_cases (getCpu_cases env r h),
   fun h => data_empty_of_cases (getMemory_cases env r h)⟩

theorem C7_error_data_empty_witness :
    Resp.data ⟨1002, "ibdev2netdev failed: boom", []⟩ = [] :=
  (C7_error_data_empty envC1 ⟨1002, "ibdev2netdev failed: boom", []⟩).2.1
    (by decide) (by decide)

/-- C9: when `free` succeeds but no output line begins with "Mem:", the
memory collector returns PARSE_FAILED (1003) with empty data; when the CPU
command output is the parsable text "1.7", the CPU collector returns code 0
with the single record {cpuUsage: "1.7", cpuThreshold: "80"}. -/
theorem C9_memory_parse_scenarios (env : Env) :
    (env.free_m.exitCode = 0 →
      (∀ l ∈ pySplitlines env.free_m.stdout, pyStartsWith l "Mem:" = false) →
      getMemoryUsage env = .ok ⟨1003, "No Mem line", []⟩) ∧
    (env.top_cpu.exitCode = 0 → env.top_cpu.stdout = "1.7" →
      getCpuUsage env = .ok ⟨0, "success", [[("cpuUsage", "1.7"), ("cpuThreshold", "80")]]⟩) :=
  ⟨mem_noMemLine env, cpu_parse_17 env⟩

theorem C9_memory_parse_scenarios_witness :
    getMemoryUsage envC9 = .ok ⟨1003, "No Mem line", []⟩ ∧
    getCpuUsage envC9 = .ok ⟨0, "success", [[("cpuUsage", "1.7"), ("cpuThreshold", "80")]]⟩ :=
  ⟨(C9_memory_parse_scenarios envC9).1 (by decide) (by decide),
   (C9_memory_parse_scenarios envC9).2 (by decide) (by decide)⟩

/-- C10: no collector ever returns COMMAND_NOT_FOUND (1001),
UNEXPECTED_EXCEPTION (1004) or DEVICE_NOT_AVAILABLE (1005): every envelope
any of the eight collectors returns carries a code in {0, 1002, 1003}. -/
theorem C10_code_range (env : Env) (r : Resp) :
    (getArpConfig env = .ok r → r.code = 0 ∨ r.code = 1002 ∨ r.code = 1003) ∧
    (getLosslessNetworkConfig env = .ok r → r.code = 0 ∨ r.code = 1002 ∨ r.code = 1003) ∧
    (getPcieLinkSpeedForNic env = .ok r → r.code = 0 ∨ r.code = 1002 ∨ r.code = 1003) ∧
    (getNicCongestionStatsTx env = .ok r → r.code = 0 ∨ r.code = 1002 ∨ r.code = 1003) ∧
    (getSwitchCongestionStatsRx env = .ok r → r.code = 0 ∨ r.code = 1002 ∨ r.code = 1003) ∧
    (getNvmePcieLinkSpeed env = .ok r → r.code = 0 ∨ r.code = 1002 ∨ r.code = 1003) ∧
    (getCpuUsage env = .ok r → r.code = 0 ∨ r.code = 1002 ∨ r.code = 1003) ∧
    (getMemoryUsage env = .ok r → r.code = 0 ∨ r.code = 1002 ∨ r.code = 1003) :=
  ⟨fun h => code_range_of_cases (getArpConfig_cases env r h),
   fun h => code_range_of_cases (getLossless_cases env r h),
   fun h => code_range_of_cases (getPcie_cases env r h),
   fun h => code_range_of_cases (getCongestionTx_cases env r h),
   fun h => code_range_of_cases (getCongestionRx_cases env r h),
   fun h => code_range_of_cases (getNvme_cases env r h),
   fun h => code_range_of_cases (getCpu_cases env r h),
   fun h => code_range_of_cases (getMemory_cases env r h)⟩

theorem C10_code_range_witness :
    Resp.code ⟨0, "success", ([] : List Record)⟩ = 0 ∨
    Resp.code ⟨0, "success", ([] : List Record)⟩ = 1002 ∨
    Resp.code ⟨0, "success", ([] : List Record)⟩ = 1003 :=
  (C10_code_range Env.default ⟨0, "success", []⟩).1 (by decide)

/- ========================================================================
   JSON values and serialization (`ResponseBuilder.build` round trip)
   ======================================================================== -/

mutual
/-- A JSON value as produced by the `json.dumps`-serializable Python data of
this model: null, booleans, integers, strings, arrays and insertion-ordered
objects. Floats are outside the model. -/
inductive JVal where
  | jnull : JVal
  | jbool : Bool → JVal
  | jnum : Int → JVal
  | jstr : List Char → JVal
  | jarr : JArr → JVal
  | jobj : JObj → JVal

/-- A JSON array, as a bespoke list so that structural recursion over the
whole family is available. -/
inductive JArr where
  | anil : JArr
  | acons : JVal → JArr → JArr

/-- A JSON object: insertion-ordered key/value pairs. -/
inductive JObj where
  | onil : JObj
  | ocons : List Char → JVal → JObj → JObj
end

/-- Decimal digit characters of a natural number, big-endian. -/
def natChars (n : Nat) : List Char :=
  if n = 0 then ['0']
  else (natToRevDigitsAux 10 n n).reverse.map (fun d => Char.ofNat (48 + d))

/-- Rendering of an integer, as `json.dumps` prints Python ints. -/
def intChars (n : Int) : List Char :=
  if n < 0 then '-' :: natChars n.natAbs else natChars n.natAbs

/-- String-body escaping of `json.dumps`: quote and backslash are
backslash-escaped; control characters are outside the model (the repository
never puts them in keys or messages). -/
def escapeChars : List Char → List Char
  | [] => []
  | c :: rest =>
    if c = '"' then '\\' :: '"' :: escapeChars rest
    else if c = '\\' then '\\' :: '\\' :: escapeChars rest
    else c :: escapeChars rest

/-- A rendered JSON string literal. -/
def renderStr (s : List Char) : List Char := '"' :: (escapeChars s ++ ['"'])

/-- Indentation of the pretty printer: newline plus `2 * d` spaces. -/
def nlIndent (d : Nat) : List Char := '\n' :: List.replicate (2 * d) ' '

/-- Whitespace after an opening bracket: an indented new line when pretty
(`indent=2`), nothing when compact. -/
def openGap (p : Bool) (d : Nat) : List Char := if p then nlIndent (d + 1) else []

/-- Whitespace after an item-separating comma (`json.dumps` uses `", "` when
compact). -/
def sepGap (p : Bool) (d : Nat) : List Char := if p then nlIndent (d + 1) else [' ']

/-- Whitespace before a closing bracket. -/
def closeGap (p : Bool) (d : Nat) : List Char := if p then nlIndent d else []

mutual
/-- Rendering of a JSON value — `json.dumps` with `ensure_ascii=False`, with
`indent=2` when `p` is true and the default compact separators otherwise —
at nesting depth `d`. -/
def renderV (p : Bool) (d : Nat) : JVal → List Char
  | .jnull => ['n', 'u', 'l', 'l']
  | .jbool true => ['t', 'r', 'u', 'e']
  | .jbool false => ['f', 'a', 'l', 's', 'e']
  | .jnum n => intChars n
  | .jstr s => renderStr s
  | .jarr .anil => ['[', ']']
  | .jarr (.acons v vs) =>
    '[' :: (openGap p d ++ renderV p (d + 1) v ++ renderArrTail p d vs ++
      closeGap p d ++ [']'])
  | .jobj .onil => ['\x7b', '\x7d']
  | .jobj (.ocons k v kvs) =>
    '\x7b' :: (openGap p d ++ renderStr k ++ ':' :: ' ' :: renderV p (d + 1) v ++
      renderObjTail p d kvs ++ closeGap p d ++ ['\x7d'])

/-- Rendering of the array elements after the first. -/
def renderArrTail (p : Bool) (d : Nat) : JArr → List Char
  | .anil => []
  | .acons v vs => ',' :: (sepGap p d ++ renderV p (d + 1) v ++ renderArrTail p d vs)

/-- Rendering of the object items after the first. -/
def renderObjTail (p : Bool) (d : Nat) : JObj → List Char
  | .onil => []
  | .ocons k v kvs =>
    ',' :: (sepGap p d ++ renderStr k ++ ':' :: ' ' :: renderV p (d + 1) v ++
      renderObjTail p d kvs)
end

/-- JSON inter-token whitespace. -/
def isWsChar (c : Char) : Bool := c = ' ' || c = '\n' || c = '\t' || c = '\r'

/-- Skip leading whitespace. -/
def skipWs : List Char → List Char
  | [] => []
  | c :: cs => if isWsChar c then skipWs cs else c :: cs

/-- Expect a fixed character sequence. -/
def expectChars : List Char → List Char → Option (List Char)
  | [], cs => some cs
  | _ :: _, [] => none
  | e :: es, c :: cs => if c = e then expectChars es cs else none

/-- Parse a JSON string body up to the closing quote, understanding the two
escapes the renderer produces. -/
def parseStrBody : List Char → Option (List Char × List Char)
  | [] => none
  | c :: rest =>
    if c = '"' then some ([], rest)
    else if c = '\\' then
      match rest with
      | [] => none
      | e :: rest2 =>
        if e = '"' || e = '\\' then
          match parseStrBody rest2 with
          | some (s, r) => some (e :: s, r)
          | none => none
        else none
    else
      match parseStrBody rest with
      | some (s, r) => some (c :: s, r)
      | none => none

/-- Accumulate decimal digits onto `acc`. -/
def parseDigitsLoop (acc : Nat) : List Char → Nat × List Char
  | [] => (acc, [])
  | c :: cs =>
    if c.isDigit then parseDigitsLoop (10 * acc + (c.toNat - 48)) cs else (acc, c :: cs)

/-- Parse an optionally negated decimal integer. -/
def parseIntChars : List Char → Option (Int × List Char)
  | [] => none
  | c :: cs =>
    if c = '-' then
      match cs with
      | [] => none
      | c2 :: cs2 =>
        if c2.isDigit then
          let q := parseDigitsLoop (c2.toNat - 48) cs2
          some (-(q.1 : Int), q.2)
        else none
    else if c.isDigit then
      let q := parseDigitsLoop (c.toNat - 48) cs
      some ((q.1 : Int), q.2)
    else none

mutual
/-- Recursive-descent JSON value parser, fuel-indexed for structural
termination. -/
def parseV : Nat → List Char → Option (JVal × List Char)
  | 0, _ => none
  | fuel + 1, cs0 =>
    match skipWs cs0 with
    | [] => none
    | c :: cs =>
      if c.isDigit || c = '-' then
        match parseIntChars (c :: cs) with
        | some (n, r) => some (.jnum n, r)
        | none => none
      else if c = 'n' then
        match expectChars ['u', 'l', 'l'] cs with
        | some rest => some (.jnull, rest)
        | none => none
      else if c = 't' then
        match expectChars ['r', 'u', 'e'] cs with
        | some rest => some (.jbool true, rest)
        | none => none
      else if c = 'f' then
        match expectChars ['a', 'l', 's', 'e'] cs with
        | some rest => some (.jbool false, rest)
        | none => none
      else if c = '"' then
        match parseStrBody cs with
        | some (s, r) => some (.jstr s, r)
        | none => none
      else if c = '[' then
        if (skipWs cs).head? = some ']' then some (.jarr .anil, (skipWs cs).tail)
        else
          match parseV fuel cs with
          | some (v, r2) =>
            match parseArrTail fuel r2 with
            | some (vs, r3) => some (.jarr (.acons v vs), r3)
            | none => none
          | none => none
      else if c = '\x7b' then
        if (skipWs cs).head? = some '\x7d' then some (.jobj .onil, (skipWs cs).tail)
        else
          match parseObjItem fuel cs with
          | some (k, v, r2) =>
            match parseObjTail fuel r2 with
            | some (kvs, r3) => some (.jobj (.ocons k v kvs), r3)
            | none => none
          | none => none
      else none

/-- Parse array elements after the first: a comma-led element or the closing
bracket. -/
def parseArrTail : Nat → List Char → Option (JArr × List Char)
  | 0, _ => none
  | fuel + 1, cs0 =>
    match skipWs cs0 with
    | [] => none
    | c :: cs =>
      if c = ']' then some (.anil, cs)
      else if c = ',' then
        match parseV fuel cs with
        | some (v, r2) =>
          match parseArrTail fuel r2 with
          | some (vs, r3) => some (.acons v vs, r3)
          | none => none
        | none => none
      else none

/-- Parse one `"key": value` item. -/
def parseObjItem : Nat → List Char → Option (List Char × JVal × List Char)
  | 0, _ => none
  | fuel + 1, cs0 =>
    match skipWs cs0 with
    | [] => none
    | c :: cs =>
      if c = '"' then
        match parseStrBody cs with
        | some (k, r2) =>
          match skipWs r2 with
          | [] => none
          | c2 :: r3 =>
            if c2 = ':' then
              match parseV fuel r3 with
              | some (v, r4) => some (k, v, r4)
              | none => none
            else none
        | none => none
      else none

/-- Parse object items after the first: a comma-led item or the closing
brace. -/
def parseObjTail : Nat → List Char → Option (JObj × List Char)
  | 0, _ => none
  | fuel + 1, cs0 =>
    match skipWs cs0 with
    | [] => none
    | c :: cs =>
      if c = '\x7d' then some (.onil, cs)
      else if c = ',' then
        match parseObjItem fuel cs with
        | some (k, v, r2) =>
          match parseObjTail fuel r2 with
          | some (kvs, r3) => some (.ocons k v kvs, r3)
          | none => none
        | none => none
      else none
end

mutual
/-- The parser fuel a value needs (one unit per `parseV` entry, taking the
maximum over independent sub-parses). -/
def sizeV : JVal → Nat
  | .jnull => 1
  | .jbool _ => 1
  | .jnum _ => 1
  | .jstr _ => 1
  | .jarr .anil => 1
  | .jarr (.acons v vs) => 1 + max (sizeV v) (sizeA vs)
  | .jobj .onil => 1
  | .jobj (.ocons _ v kvs) => 1 + max (1 + sizeV v) (sizeO kvs)

/-- Fuel needed by `parseArrTail`. -/
def sizeA : JArr → Nat
  | .anil => 1
  | .acons v vs => 1 + max (sizeV v) (sizeA vs)

/-- Fuel needed by `parseObjTail`. -/
def sizeO : JObj → Nat
  | .onil => 1
  | .ocons _ v kvs => 1 + max (1 + sizeV v) (sizeO kvs)
end

/-- Serialization entry point: render at depth 0. -/
def jdump (p : Bool) (v : JVal) : List Char := renderV p 0 v

/-- Deserialization entry point (`json.loads` on the documents the renderer
produces): parse one value with ample fuel and require only trailing
whitespace. -/
def jparse (cs : List Char) : Option JVal :=
  match parseV (cs.length + 1) cs with
  | some (v, rest) => if (skipWs rest).isEmpty then some v else none
  | none => none
def noDigitHead : List Char → Bool
  | [] => true
  | c :: _ => !c.isDigit

theorem skipWs_cons_of_not (c : Char) (cs : List Char) (h : isWsChar c = false) :
    skipWs (c :: cs) = c :: cs := by
  simp [skipWs, h]

theorem skipWs_append_ws (ws cs : List Char) (h : ∀ c ∈ ws, isWsChar c = true) :
    skipWs (ws ++ cs) = skipWs cs := by
  induction ws with
  | nil => rfl
  | cons a as ih =>
    have ha := h a (List.mem_cons_self a as)
    simp only [List.cons_append, skipWs, ha, if_true]
    exact ih (fun c hc => h c (List.mem_cons_of_mem a hc))

theorem nlIndent_ws (d : Nat) : ∀ c ∈ nlIndent d, isWsChar c = true := by
  intro c hc
  simp only [nlIndent, List.mem_cons] at hc
  rcases hc with h | h
  · subst h; rfl
  · have := List.eq_of_mem_replicate h
    subst this; rfl

theorem openGap_ws (p : Bool) (d : Nat) : ∀ c ∈ openGap p d, isWsChar c = true := by
  cases p
  · intro c hc; simp [openGap] at hc
  · intro c hc
    exact nlIndent_ws _ c (by simpa [openGap] using hc)

theorem sepGap_ws (p : Bool) (d : Nat) : ∀ c ∈ sepGap p d, isWsChar c = true := by
  cases p
  · intro c hc
    simp only [sepGap, if_neg Bool.false_ne_true, List.mem_singleton] at hc
    subst hc; rfl
  · intro c hc
    exact nlIndent_ws _ c (by simpa [sepGap] using hc)

theorem closeGap_ws (p : Bool) (d : Nat) : ∀ c ∈ closeGap p d, isWsChar c = true := by
  cases p
  · intro c hc; simp [closeGap] at hc
  · intro c hc
    exact nlIndent_ws _ c (by simpa [closeGap] using hc)

theorem parseV_ws (fuel : Nat) (ws cs : List Char) (h : ∀ c ∈ ws, isWsChar c = true) :
    parseV fuel (ws ++ cs) = parseV fuel cs := by
  cases fuel with
  | zero => rfl
  | succ f => simp only [parseV, skipWs_append_ws ws cs h]

theorem parseArrTail_ws (fuel : Nat) (ws cs : List Char) (h : ∀ c ∈ ws, isWsChar c = true) :
    parseArrTail fuel (ws ++ cs) = parseArrTail fuel cs := by
  cases fuel with
  | zero => rfl
  | succ f => simp only [parseArrTail, skipWs_append_ws ws cs h]

theorem parseObjItem_ws (fuel : Nat) (ws cs : List Char) (h : ∀ c ∈ ws, isWsChar c = true) :
    parseObjItem fuel (ws ++ cs) = parseObjItem fuel cs := by
  cases fuel with
  | zero => rfl
  | succ f => simp only [parseObjItem, skipWs_append_ws ws cs h]

theorem parseObjTail_ws (fuel : Nat) (ws cs : List Char) (h : ∀ c ∈ ws, isWsChar c = true) :
    parseObjTail fuel (ws ++ cs) = parseObjTail fuel cs := by
  cases fuel with
  | zero => rfl
  | succ f => simp only [parseObjTail, skipWs_append_ws ws cs h]

theorem parseStrBody_escape (s rest : List Char) :
    parseStrBody (escapeChars s ++ '"' :: rest) = some (s, rest) := by
  induction s with
  | nil =>
    rw [show escapeChars [] ++ '"' :: rest = '"' :: rest from rfl, parseStrBody.eq_def]
    simp
  | cons c cs ih =>
    by_cases h1 : c = '"'
    · subst h1
      rw [show escapeChars ('"' :: cs) ++ '"' :: rest =
            '\\' :: '"' :: (escapeChars cs ++ '"' :: rest) from rfl,
          parseStrBody.eq_def]
      simp [ih]
    · by_cases h2 : c = '\\'
      · subst h2
        rw [show escapeChars ('\\' :: cs) ++ '"' :: rest =
              '\\' :: '\\' :: (escapeChars cs ++ '"' :: rest) from rfl,
            parseStrBody.eq_def]
        simp [ih]
      · have hesc : escapeChars (c :: cs) ++ '"' :: rest =
            c :: (escapeChars cs ++ '"' :: rest) := by
          simp [escapeChars, h1, h2]
        rw [hesc, parseStrBody.eq_def]
        simp [h1, h2, ih]
theorem digitChar_toNat (d : Nat) (h : d < 10) : (Char.ofNat (48 + d)).toNat = 48 + d := by
  interval_cases d <;> decide

theorem digitChar_isDigit (d : Nat) (h : d < 10) : (Char.ofNat (48 + d)).isDigit = true := by
  interval_cases d <;> decide

theorem digitChar_props (d : Nat) (h : d < 10) :
    isWsChar (Char.ofNat (48 + d)) = false ∧ Char.ofNat (48 + d) ≠ '-' ∧
    Char.ofNat (48 + d) ≠ ']' ∧ Char.ofNat (48 + d) ≠ '\x7d' := by
  interval_cases d <;> exact ⟨by decide, by decide, by decide, by decide⟩

theorem parseDigitsLoop_map (ds : List Nat) (hds : ∀ d ∈ ds, d < 10) :
    ∀ (acc : Nat) (rest : List Char), noDigitHead rest = true →
    parseDigitsLoop acc (ds.map (fun d => Char.ofNat (48 + d)) ++ rest) = (ds.foldl (fun a d => 10 * a + d) acc, rest) := by
  induction ds with
  | nil =>
    intro acc rest hrest
    cases rest with
    | nil => rfl
    | cons c cs =>
      simp only [noDigitHead, Bool.not_eq_true'] at hrest
      rw [show (([] : List Nat).map (fun d => Char.ofNat (48 + d)) ++ c :: cs) = c :: cs from rfl,
          parseDigitsLoop.eq_def]
      simp [hrest]
  | cons d ds ih =>
    intro acc rest hrest
    have hd := hds d (List.mem_cons_self d ds)
    rw [show ((d :: ds).map (fun d => Char.ofNat (48 + d)) ++ rest) =
          Char.ofNat (48 + d) :: (ds.map (fun d => Char.ofNat (48 + d)) ++ rest) from by simp,
        parseDigitsLoop.eq_def]
    simp only [digitChar_isDigit d hd, if_true, digitChar_toNat d hd, List.foldl_cons]
    have h48 : 48 + d - 48 = d := by omega
    rw [h48]
    exact ih (fun x hx => hds x (List.mem_cons_of_mem d hx)) _ rest hrest

theorem natToRevDigitsAux10_lt (fuel : Nat) :
    ∀ n, ∀ d ∈ natToRevDigitsAux 10 fuel n, d < 10 := by
  induction fuel with
  | zero =>
    intro n d hd
    cases n <;> simp [natToRevDigitsAux] at hd
  | succ f ih =>
    intro n d hd
    cases n with
    | zero => simp [natToRevDigitsAux] at hd
    | succ m =>
      simp only [natToRevDigitsAux, List.mem_cons] at hd
      rcases hd with rfl | hd
      · exact Nat.mod_lt _ (by norm_num)
      · exact ih _ d hd

theorem natToRevDigitsAux10_foldl (fuel : Nat) :
    ∀ n acc, n ≤ fuel →
    (natToRevDigitsAux 10 fuel n).reverse.foldl (fun a d => 10 * a + d) acc =
      acc * 10 ^ (natToRevDigitsAux 10 fuel n).length + n := by
  induction fuel with
  | zero =>
    intro n acc hn
    interval_cases n
    simp [natToRevDigitsAux]
  | succ f ih =>
    intro n acc hn
    cases n with
    | zero => simp [natToRevDigitsAux]
    | succ m =>
      have hdiv : (m + 1) / 10 ≤ f := by
        have := Nat.div_lt_self (Nat.succ_pos m) (by norm_num : 1 < 10)
        omega
      simp only [natToRevDigitsAux, List.reverse_cons, List.foldl_append, List.foldl_cons,
        List.foldl_nil, List.length_cons]
      rw [ih _ acc hdiv]
      have hmod := Nat.div_add_mod (m + 1) 10
      set L := (natToRevDigitsAux 10 f ((m + 1) / 10)).length with hL
      calc 10 * (acc * 10 ^ L + (m + 1) / 10) + (m + 1) % 10
          = acc * (10 ^ L * 10) + (10 * ((m + 1) / 10) + (m + 1) % 10) := by ring
        _ = acc * 10 ^ (L + 1) + (m + 1) := by rw [hmod, pow_succ]

theorem natToRevDigitsAux10_ne_nil (fuel m : Nat) (h : m + 1 ≤ fuel) :
    natToRevDigitsAux 10 fuel (m + 1) ≠ [] := by
  cases fuel with
  | zero => omega
  | succ f => simp [natToRevDigitsAux]

theorem natChars_parse (m : Nat) (rest : List Char) (hrest : noDigitHead rest = true) :
    ∃ c cs, natChars m ++ rest = c :: cs ∧ c.isDigit = true ∧ c ≠ '-' ∧
      isWsChar c = false ∧ c ≠ ']' ∧ c ≠ '\x7d' ∧
      parseDigitsLoop (c.toNat - 48) cs = (m, rest) := by
  by_cases h0 : m = 0
  · subst h0
    refine ⟨'0', rest, by simp [natChars], by decide, by decide, by decide, by decide, by decide, ?_⟩
    have : ('0' : Char).toNat - 48 = 0 := by decide
    rw [this]
    cases rest with
    | nil => rfl
    | cons c cs =>
      simp only [noDigitHead, Bool.not_eq_true'] at hrest
      rw [parseDigitsLoop.eq_def]
      simp [hrest]
  · have hne : (natToRevDigitsAux 10 m m).reverse ≠ [] := by
      intro hcon
      apply natToRevDigitsAux10_ne_nil m (m - 1) (by omega)
      rw [show m - 1 + 1 = m from by omega]
      simpa using hcon
    obtain ⟨d0, ds, hrev⟩ := List.exists_cons_of_ne_nil hne
    have hlt : ∀ x ∈ d0 :: ds, x < 10 := by
      rw [← hrev]
      intro x hx
      exact natToRevDigitsAux10_lt m m x (List.mem_reverse.mp hx)
    have hd0 := hlt d0 (List.mem_cons_self d0 ds)
    obtain ⟨hw, hneg, hb1, hb2⟩ := digitChar_props d0 hd0
    have hfold : (d0 :: ds).foldl (fun a d => 10 * a + d) 0 = m := by
      have := natToRevDigitsAux10_foldl m m 0 (le_refl m)
      rw [hrev] at this
      simpa using this
    refine ⟨Char.ofNat (48 + d0), ds.map (fun d => Char.ofNat (48 + d)) ++ rest, ?_,
      digitChar_isDigit d0 hd0, hneg, hw, hb1, hb2, ?_⟩
    · simp [natChars, h0, hrev]
    · rw [digitChar_toNat d0 hd0, show 48 + d0 - 48 = d0 from by omega,
        parseDigitsLoop_map ds (fun x hx => hlt x (List.mem_cons_of_mem d0 hx)) d0 rest hrest]
      rw [show (ds.foldl (fun a d => 10 * a + d) d0) = (d0 :: ds).foldl (fun a d => 10 * a + d) 0 from by simp,
        hfold]
theorem parseIntChars_intChars (n : Int) (rest : List Char) (hrest : noDigitHead rest = true) :
    parseIntChars (intChars n ++ rest) = some (n, rest) := by
  by_cases hneg : n < 0
  · obtain ⟨c, cs, heq, hdig, hne, _, _, _, hloop⟩ := natChars_parse n.natAbs rest hrest
    rw [show intChars n ++ rest = '-' :: (natChars n.natAbs ++ rest) from by
          simp [intChars, hneg],
        heq, parseIntChars.eq_def]
    simp [hdig, hloop]
    rw [abs_of_neg hneg, neg_neg]
  · obtain ⟨c, cs, heq, hdig, hne, _, _, _, hloop⟩ := natChars_parse n.natAbs rest hrest
    rw [show intChars n ++ rest = natChars n.natAbs ++ rest from by simp [intChars, hneg],
        heq, parseIntChars.eq_def]
    simp [hne, hdig, hloop, show ((n.natAbs : Nat) : Int) = n from by omega]

theorem renderV_head (p : Bool) (d : Nat) (v : JVal) :
    ∃ c t, renderV p d v = c :: t ∧ isWsChar c = false ∧ c ≠ ']' ∧ c ≠ '\x7d' := by
  cases v with
  | jnull => exact ⟨'n', ['u', 'l', 'l'], rfl, by decide, by decide, by decide⟩
  | jbool b =>
    cases b
    · exact ⟨'f', ['a', 'l', 's', 'e'], rfl, by decide, by decide, by decide⟩
    · exact ⟨'t', ['r', 'u', 'e'], rfl, by decide, by decide, by decide⟩
  | jnum n =>
    by_cases hneg : n < 0
    · exact ⟨'-', natChars n.natAbs, by simp [renderV, intChars, hneg],
        by decide, by decide, by decide⟩
    · obtain ⟨c, cs, heq, hdig, hne, hw, hb1, hb2, _⟩ := natChars_parse n.natAbs [] rfl
      rw [List.append_nil] at heq
      exact ⟨c, cs, by simp [renderV, intChars, hneg, heq], hw, hb1, hb2⟩
  | jstr s => exact ⟨'"', escapeChars s ++ ['"'], rfl, by decide, by decide, by decide⟩
  | jarr a =>
    cases a
    · exact ⟨'[', [']'], rfl, by decide, by decide, by decide⟩
    · exact ⟨'[', _, rfl, by decide, by decide, by decide⟩
  | jobj o =>
    cases o
    · exact ⟨'\x7b', ['\x7d'], rfl, by decide, by decide, by decide⟩
    · exact ⟨'\x7b', _, rfl, by decide, by decide, by decide⟩
theorem sizeV_pos (v : JVal) : 1 ≤ sizeV v := by
  cases v with
  | jnull => simp [sizeV]
  | jbool b => simp [sizeV]
  | jnum n => simp [sizeV]
  | jstr s => simp [sizeV]
  | jarr a => cases a <;> simp [sizeV]
  | jobj o => cases o <;> simp [sizeV]

theorem noDigitHead_arrRest (p : Bool) (d : Nat) (vs : JArr) (rest : List Char) :
    noDigitHead (renderArrTail p d vs ++ (closeGap p d ++ ']' :: rest)) = true := by
  cases vs <;> cases p <;> rfl

theorem noDigitHead_objRest (p : Bool) (d : Nat) (kvs : JObj) (rest : List Char) :
    noDigitHead (renderObjTail p d kvs ++ (closeGap p d ++ '\x7d' :: rest)) = true := by
  cases kvs <;> cases p <;> rfl

theorem intChars_head (n : Int) : ∃ c t, intChars n = c :: t ∧ isWsChar c = false ∧
    (c.isDigit || c = '-') = true := by
  by_cases hneg : n < 0
  · exact ⟨'-', natChars n.natAbs, by simp [intChars, hneg], by decide, by decide⟩
  · obtain ⟨c, cs, heq, hdig, _, hw, _, _, _⟩ := natChars_parse n.natAbs [] rfl
    rw [List.append_nil] at heq
    exact ⟨c, cs, by simp [intChars, hneg, heq], hw, by simp [hdig]⟩

theorem parseObjItem_step (f : Nat) (k : List Char) (v : JVal) (body tail : List Char)
    (hv : parseV f body = some (v, tail)) :
    parseObjItem (f + 1) (renderStr k ++ ':' :: ' ' :: body) = some (k, v, tail) := by
  have h1 : skipWs ('"' :: (escapeChars k ++ '"' :: (':' :: ' ' :: body))) =
      '"' :: (escapeChars k ++ '"' :: (':' :: ' ' :: body)) :=
    skipWs_cons_of_not _ _ (by decide)
  have h2 : skipWs (':' :: ' ' :: body) = ':' :: ' ' :: body :=
    skipWs_cons_of_not _ _ (by decide)
  have h3 : parseV f (' ' :: body) = parseV f body :=
    parseV_ws f [' '] body (by decide)
  rw [show renderStr k ++ ':' :: ' ' :: body =
        '"' :: (escapeChars k ++ '"' :: (':' :: ' ' :: body)) from by simp [renderStr],
      parseObjItem.eq_def]
  simp [h1, h2, h3, parseStrBody_escape, hv]
mutual

theorem parse_render_V (v : JVal) : ∀ (p : Bool) (d fuel : Nat) (rest : List Char),
    sizeV v ≤ fuel → noDigitHead rest = true →
    parseV fuel (renderV p d v ++ rest) = some (v, rest) := by
  intro p d fuel rest hsz hrest
  cases v with
  | jnull =>
    obtain ⟨f, rfl⟩ : ∃ f, fuel = f + 1 := ⟨fuel - 1, by simp [sizeV] at hsz; omega⟩
    rw [show renderV p d .jnull ++ rest = 'n' :: ('u' :: 'l' :: 'l' :: rest) from rfl,
        parseV.eq_def]
    dsimp only
    rw [skipWs_cons_of_not _ _ (by decide)]
    simp [expectChars]
  | jbool b =>
    obtain ⟨f, rfl⟩ : ∃ f, fuel = f + 1 := ⟨fuel - 1, by simp [sizeV] at hsz; omega⟩
    cases b
    · rw [show renderV p d (.jbool false) ++ rest =
            'f' :: ('a' :: 'l' :: 's' :: 'e' :: rest) from rfl,
          parseV.eq_def]
      dsimp only
      rw [skipWs_cons_of_not _ _ (by decide)]
      simp [expectChars]
    · rw [show renderV p d (.jbool true) ++ rest = 't' :: ('r' :: 'u' :: 'e' :: rest) from rfl,
          parseV.eq_def]
      dsimp only
      rw [skipWs_cons_of_not _ _ (by decide)]
      simp [expectChars]
  | jnum n =>
    obtain ⟨f, rfl⟩ : ∃ f, fuel = f + 1 := ⟨fuel - 1, by simp [sizeV] at hsz; omega⟩
    obtain ⟨c, t, hr, hw, hstart⟩ := intChars_head n
    rw [show renderV p d (.jnum n) ++ rest = c :: (t ++ rest) from by
          simp [renderV, hr],
        parseV.eq_def]
    dsimp only
    rw [skipWs_cons_of_not _ _ hw]
    simp only [hstart, if_true]
    rw [show c :: (t ++ rest) = intChars n ++ rest from by rw [hr]; rfl,
        parseIntChars_intChars n rest hrest]
  | jstr s =>
    obtain ⟨f, rfl⟩ : ∃ f, fuel = f + 1 := ⟨fuel - 1, by simp [sizeV] at hsz; omega⟩
    rw [show renderV p d (.jstr s) ++ rest = '"' :: (escapeChars s ++ '"' :: rest) from by
          simp [renderV, renderStr],
        parseV.eq_def]
    dsimp only
    rw [skipWs_cons_of_not _ _ (by decide)]
    simp [parseStrBody_escape]
  | jarr a =>
    cases a with
    | anil =>
      obtain ⟨f, rfl⟩ : ∃ f, fuel = f + 1 := ⟨fuel - 1, by simp [sizeV] at hsz; omega⟩
      rw [show renderV p d (.jarr .anil) ++ rest = '[' :: (']' :: rest) from rfl,
          parseV.eq_def]
      dsimp only
      rw [skipWs_cons_of_not _ _ (by decide)]
      simp [skipWs_cons_of_not ']' rest (by decide)]
    | acons v vs =>
      obtain ⟨f, rfl⟩ : ∃ f, fuel = f + 1 := ⟨fuel - 1, by simp [sizeV] at hsz; omega⟩
      have hszv : sizeV v ≤ f := by simp [sizeV] at hsz; omega
      have hszvs : sizeA vs ≤ f := by simp [sizeV] at hsz; omega
      obtain ⟨c1, t1, hr1, hw1, hb1, _⟩ := renderV_head p (d + 1) v
      rw [show renderV p d (.jarr (.acons v vs)) ++ rest =
            '[' :: (openGap p d ++ (renderV p (d + 1) v ++ (renderArrTail p d vs ++
              (closeGap p d ++ (']' :: rest))))) from by
            simp [renderV, List.append_assoc],
          parseV.eq_def]
      dsimp only
      rw [skipWs_cons_of_not _ _ (by decide)]
      have hskip : skipWs (openGap p d ++ (renderV p (d + 1) v ++ (renderArrTail p d vs ++
          (closeGap p d ++ (']' :: rest))))) =
          c1 :: (t1 ++ (renderArrTail p d vs ++ (closeGap p d ++ (']' :: rest)))) := by
        rw [skipWs_append_ws _ _ (openGap_ws p d), hr1, List.cons_append,
            skipWs_cons_of_not _ _ hw1]
      have hpv : parseV f (openGap p d ++ (renderV p (d + 1) v ++ (renderArrTail p d vs ++
          (closeGap p d ++ (']' :: rest))))) =
          some (v, renderArrTail p d vs ++ (closeGap p d ++ ']' :: rest)) := by
        rw [parseV_ws f _ _ (openGap_ws p d)]
        exact parse_render_V v p (d + 1) f _ hszv (noDigitHead_arrRest p d vs rest)
      have hpa : parseArrTail f (renderArrTail p d vs ++ (closeGap p d ++ ']' :: rest)) =
          some (vs, rest) := parse_render_A vs p d f rest hszvs
      simp [hskip, hb1, hpv, hpa]
  | jobj o =>
    cases o with
    | onil =>
      obtain ⟨f, rfl⟩ : ∃ f, fuel = f + 1 := ⟨fuel - 1, by simp [sizeV] at hsz; omega⟩
      rw [show renderV p d (.jobj .onil) ++ rest = '\x7b' :: ('\x7d' :: rest) from rfl,
          parseV.eq_def]
      dsimp only
      rw [skipWs_cons_of_not _ _ (by decide)]
      simp [skipWs_cons_of_not '\x7d' rest (by decide)]
    | ocons k v kvs =>
      obtain ⟨f, rfl⟩ : ∃ f, fuel = f + 1 := ⟨fuel - 1, by simp [sizeV] at hsz; omega⟩
      have hszv : 1 + sizeV v ≤ f := by simp [sizeV] at hsz; omega
      obtain ⟨f2, rfl⟩ : ∃ f2, f = f2 + 1 := ⟨f - 1, by have := sizeV_pos v; omega⟩
      have hszv2 : sizeV v ≤ f2 := by omega
      have hszkvs : sizeO kvs ≤ f2 + 1 := by simp [sizeV] at hsz; omega
      rw [show renderV p d (.jobj (.ocons k v kvs)) ++ rest =
            '\x7b' :: (openGap p d ++ (renderStr k ++ ':' :: ' ' :: (renderV p (d + 1) v ++
              (renderObjTail p d kvs ++ (closeGap p d ++ ('\x7d' :: rest)))))) from by
            simp [renderV, List.append_assoc],
          parseV.eq_def]
      dsimp only
      rw [skipWs_cons_of_not _ _ (by decide)]
      have hskip : skipWs (openGap p d ++ (renderStr k ++ ':' :: ' ' :: (renderV p (d + 1) v ++
          (renderObjTail p d kvs ++ (closeGap p d ++ ('\x7d' :: rest)))))) =
          '"' :: (escapeChars k ++ ['"'] ++ (':' :: ' ' :: (renderV p (d + 1) v ++
            (renderObjTail p d kvs ++ (closeGap p d ++ ('\x7d' :: rest)))))) := by
        rw [skipWs_append_ws _ _ (openGap_ws p d)]
        rw [show renderStr k ++ ':' :: ' ' :: (renderV p (d + 1) v ++
              (renderObjTail p d kvs ++ (closeGap p d ++ ('\x7d' :: rest)))) =
            '"' :: (escapeChars k ++ ['"'] ++ (':' :: ' ' :: (renderV p (d + 1) v ++
              (renderObjTail p d kvs ++ (closeGap p d ++ ('\x7d' :: rest)))))) from by
            simp [renderStr]]
        exact skipWs_cons_of_not _ _ (by decide)
      have hitem : parseObjItem (f2 + 1) (openGap p d ++ (renderStr k ++ ':' :: ' ' ::
          (renderV p (d + 1) v ++ (renderObjTail p d kvs ++ (closeGap p d ++ ('\x7d' :: rest)))))) =
          some (k, v, renderObjTail p d kvs ++ (closeGap p d ++ '\x7d' :: rest)) := by
        rw [parseObjItem_ws _ _ _ (openGap_ws p d)]
        exact parseObjItem_step f2 k v _ _
          (parse_render_V v p (d + 1) f2 _ hszv2 (noDigitHead_objRest p d kvs rest))
      have htail : parseObjTail (f2 + 1) (renderObjTail p d kvs ++ (closeGap p d ++ '\x7d' :: rest)) =
          some (kvs, rest) := parse_render_O kvs p d (f2 + 1) rest hszkvs
      simp [hskip, hitem, htail]

theorem parse_render_A (vs : JArr) : ∀ (p : Bool) (d fuel : Nat) (rest : List Char),
    sizeA vs ≤ fuel →
    parseArrTail fuel (renderArrTail p d vs ++ (closeGap p d ++ ']' :: rest)) = some (vs, rest) := by
  intro p d fuel rest hsz
  cases vs with
  | anil =>
    obtain ⟨f, rfl⟩ : ∃ f, fuel = f + 1 := ⟨fuel - 1, by simp [sizeA] at hsz; omega⟩
    rw [show renderArrTail p d .anil ++ (closeGap p d ++ ']' :: rest) =
          closeGap p d ++ (']' :: rest) from by simp [renderArrTail],
        parseArrTail_ws _ _ _ (closeGap_ws p d),
        parseArrTail.eq_def]
    dsimp only
    rw [skipWs_cons_of_not _ _ (by decide)]
    simp
  | acons v vs2 =>
    obtain ⟨f, rfl⟩ : ∃ f, fuel = f + 1 := ⟨fuel - 1, by simp [sizeA] at hsz; omega⟩
    have hszv : sizeV v ≤ f := by simp [sizeA] at hsz; omega
    have hszvs : sizeA vs2 ≤ f := by simp [sizeA] at hsz; omega
    rw [show renderArrTail p d (.acons v vs2) ++ (closeGap p d ++ ']' :: rest) =
          ',' :: (sepGap p d ++ (renderV p (d + 1) v ++ (renderArrTail p d vs2 ++
            (closeGap p d ++ (']' :: rest))))) from by
          simp [renderArrTail, List.append_assoc],
        parseArrTail.eq_def]
    dsimp only
    rw [skipWs_cons_of_not _ _ (by decide)]
    have hpv : parseV f (sepGap p d ++ (renderV p (d + 1) v ++ (renderArrTail p d vs2 ++
        (closeGap p d ++ (']' :: rest))))) =
        some (v, renderArrTail p d vs2 ++ (closeGap p d ++ ']' :: rest)) := by
      rw [parseV_ws f _ _ (sepGap_ws p d)]
      exact parse_render_V v p (d + 1) f _ hszv (noDigitHead_arrRest p d vs2 rest)
    have hpa : parseArrTail f (renderArrTail p d vs2 ++ (closeGap p d ++ ']' :: rest)) =
        some (vs2, rest) := parse_render_A vs2 p d f rest hszvs
    simp [hpv, hpa]

theorem parse_render_O (kvs : JObj) : ∀ (p : Bool) (d fuel : Nat) (rest : List Char),
    sizeO kvs ≤ fuel →
    parseObjTail fuel (renderObjTail p d kvs ++ (closeGap p d ++ '\x7d' :: rest)) =
      some (kvs, rest) := by
  intro p d fuel rest hsz
  cases kvs with
  | onil =>
    obtain ⟨f, rfl⟩ : ∃ f, fuel = f + 1 := ⟨fuel - 1, by simp [sizeO] at hsz; omega⟩
    rw [show renderObjTail p d .onil ++ (closeGap p d ++ '\x7d' :: rest) =
          closeGap p d ++ ('\x7d' :: rest) from by simp [renderObjTail],
        parseObjTail_ws _ _ _ (closeGap_ws p d),
        parseObjTail.eq_def]
    dsimp only
    rw [skipWs_cons_of_not _ _ (by decide)]
    simp
  | ocons k v kvs2 =>
    obtain ⟨f, rfl⟩ : ∃ f, fuel = f + 1 := ⟨fuel - 1, by simp [sizeO] at hsz; omega⟩
    have hszv : 1 + sizeV v ≤ f := by simp [sizeO] at hsz; omega
    obtain ⟨f2, rfl⟩ : ∃ f2, f = f2 + 1 := ⟨f - 1, by have := sizeV_pos v; omega⟩
    have hszv2 : sizeV v ≤ f2 := by omega
    have hszkvs : sizeO kvs2 ≤ f2 + 1 := by simp [sizeO] at hsz; omega
    rw [show renderObjTail p d (.ocons k v kvs2) ++ (closeGap p d ++ '\x7d' :: rest) =
          ',' :: (sepGap p d ++ (renderStr k ++ ':' :: ' ' :: (renderV p (d + 1) v ++
            (renderObjTail p d kvs2 ++ (closeGap p d ++ ('\x7d' :: rest)))))) from by
          simp [renderObjTail, List.append_assoc],
        parseObjTail.eq_def]
    dsimp only
    rw [skipWs_cons_of_not _ _ (by decide)]
    have hitem : parseObjItem (f2 + 1) (sepGap p d ++ (renderStr k ++ ':' :: ' ' ::
        (renderV p (d + 1) v ++ (renderObjTail p d kvs2 ++ (closeGap p d ++ ('\x7d' :: rest)))))) =
        some (k, v, renderObjTail p d kvs2 ++ (closeGap p d ++ '\x7d' :: rest)) := by
      rw [parseObjItem_ws _ _ _ (sepGap_ws p d)]
      exact parseObjItem_step f2 k v _ _
        (parse_render_V v p (d + 1) f2 _ hszv2 (noDigitHead_objRest p d kvs2 rest))
    have htail : parseObjTail (f2 + 1) (renderObjTail p d kvs2 ++
        (closeGap p d ++ '\x7d' :: rest)) = some (kvs2, rest) :=
      parse_render_O kvs2 p d (f2 + 1) rest hszkvs
    simp [hitem, htail]

end
theorem intChars_length_pos (n : Int) : 1 ≤ (intChars n).length := by
  obtain ⟨c, t, hr, _, _⟩ := intChars_head n
  simp [hr]

mutual

theorem sizeV_le_render (v : JVal) : ∀ (p : Bool) (d : Nat),
    sizeV v ≤ (renderV p d v).length := by
  intro p d
  cases v with
  | jnull => simp [sizeV, renderV]
  | jbool b => cases b <;> simp [sizeV, renderV]
  | jnum n =>
    simpa [sizeV, renderV] using intChars_length_pos n
  | jstr s => simp [sizeV, renderV, renderStr]
  | jarr a =>
    cases a with
    | anil => simp [sizeV, renderV]
    | acons v vs =>
      have h1 := sizeV_le_render v p (d + 1)
      have h2 := sizeA_le_render vs p d
      simp only [sizeV, renderV, List.length_cons, List.length_append]
      omega
  | jobj o =>
    cases o with
    | onil => simp [sizeV, renderV]
    | ocons k v kvs =>
      have h1 := sizeV_le_render v p (d + 1)
      have h2 := sizeO_le_render kvs p d
      simp only [sizeV, renderV, List.length_cons, List.length_append, renderStr]
      omega

theorem sizeA_le_render (vs : JArr) : ∀ (p : Bool) (d : Nat),
    sizeA vs ≤ (renderArrTail p d vs).length + 1 := by
  intro p d
  cases vs with
  | anil => simp [sizeA, renderArrTail]
  | acons v vs2 =>
    have h1 := sizeV_le_render v p (d + 1)
    have h2 := sizeA_le_render vs2 p d
    simp only [sizeA, renderArrTail, List.length_cons, List.length_append]
    omega

theorem sizeO_le_render (kvs : JObj) : ∀ (p : Bool) (d : Nat),
    sizeO kvs ≤ (renderObjTail p d kvs).length + 1 := by
  intro p d
  cases kvs with
  | onil => simp [sizeO, renderObjTail]
  | ocons k v kvs2 =>
    have h1 := sizeV_le_render v p (d + 1)
    have h2 := sizeO_le_render kvs2 p d
    simp only [sizeO, renderObjTail, List.length_cons, List.length_append, renderStr]
    omega

end

theorem jparse_jdump (p : Bool) (v : JVal) : jparse (jdump p v) = some v := by
  unfold jparse jdump
  have hsz : sizeV v ≤ (renderV p 0 v).length + 1 :=
    le_trans (sizeV_le_render v p 0) (by omega)
  have hmain := parse_render_V v p 0 ((renderV p 0 v).length + 1) [] hsz rfl
  rw [List.append_nil] at hmain
  rw [hmain]
  rfl

/- ========================================================================
   The serialized envelope of `ResponseBuilder.build` and its round trip
   ======================================================================== -/

/-- Field classification of the schema derivation, on JSON-able Python
values: ints and floats map to "number" — and so do booleans, because
`isinstance(True, (int, float))` holds in Python, making the dedicated
boolean branch unreachable; everything else maps to "string". -/
def jsonFieldType : JVal → List Char
  | .jnum _ => "number".data
  | .jbool _ => "number".data
  | _ => "string".data

/-- The `properties` object the schema derivation builds from the sample
record: each field maps to `{"type": <classified>, "description":
"<key>字段说明"}`. -/
def schemaPropsOf : JObj → JObj
  | .onil => .onil
  | .ocons k v kvs =>
    .ocons k (.jobj (.ocons "type".data (.jstr (jsonFieldType v))
      (.ocons "description".data (.jstr (k ++ "字段说明".data)) .onil)))
      (schemaPropsOf kvs)

/-- The `required` list of the derived item schema: every key of the
sample. -/
def schemaRequiredOf : JObj → JArr
  | .onil => .anil
  | .ocons k _ kvs => .acons (.jstr k) (schemaRequiredOf kvs)

/-- The `data.items` sub-schema: type object, derived properties and
required list, `additionalProperties: true`. -/
def itemsSchema (props : JObj) (req : JArr) : JVal :=
  .jobj (.ocons "type".data (.jstr "object".data)
    (.ocons "properties".data (.jobj props)
      (.ocons "required".data (.jarr req)
        (.ocons "additionalProperties".data (.jbool true) .onil))))

/-- `ResponseBuilder._get_output_schema_for_data` of
`core/response_builder.py` as a JSON value: the fixed scaffold, with the
item properties/required filled from `data[0]` when it is a dict. -/
def outputSchemaJson (data : JArr) : JVal :=
  let pr : JObj × JArr :=
    match data with
    | .anil => (.onil, .anil)
    | .acons first _ =>
      match first with
      | .jobj kvs => (schemaPropsOf kvs, schemaRequiredOf kvs)
      | _ => (.onil, .anil)
  .jobj (.ocons "type".data (.jstr "object".data)
    (.ocons "properties".data (.jobj
      (.ocons "code".data (.jobj (.ocons "type".data (.jstr "number".data)
        (.ocons "description".data (.jstr "接口返回码，0表示成功".data) .onil)))
      (.ocons "message".data (.jobj (.ocons "type".data (.jstr "string".data)
        (.ocons "description".data (.jstr "接口返回信息".data) .onil)))
      (.ocons "data".data (.jobj (.ocons "type".data (.jstr "array".data)
        (.ocons "items".data (itemsSchema pr.1 pr.2) .onil))) .onil))))
    (.ocons "required".data (.jarr (.acons (.jstr "code".data)
      (.acons (.jstr "message".data) (.acons (.jstr "data".data) .anil))))
    (.ocons "additionalProperties".data (.jbool false)
    (.ocons "description".data (.jstr "接口返回体".data)
    (.ocons "$schema".data (.jstr "http://json-schema.org/draft-07/schema#".data)
      .onil))))))

/-- `ResponseBuilder.build` of `core/response_builder.py`: serialize
`{"structuredContent": {"response": {"code", "message", "data"}},
"outputSchema": <derived>}` with `json.dumps(..., ensure_ascii=False,
indent=2 if DEBUG else None)`; a `None` data argument becomes `[]` and an
absent or falsy (empty) message falls back to the `ERROR_MESSAGES` default. -/
def ResponseBuilder_build (debug : Bool) (code : Int) (data : Option JArr)
    (message : Option (List Char)) : List Char :=
  let d := data.getD .anil
  let msg : List Char :=
    match message with
    | some m => if m.isEmpty then ((ERROR_CODE code).getD "unknown error").data else m
    | none => ((ERROR_CODE code).getD "unknown error").data
  jdump debug (.jobj (.ocons "structuredContent".data
      (.jobj (.ocons "response".data
        (.jobj (.ocons "code".data (.jnum code)
          (.ocons "message".data (.jstr msg)
            (.ocons "data".data (.jarr d) .onil)))) .onil))
    (.ocons "outputSchema".data (outputSchemaJson d) .onil)))

/-- Key lookup in a JSON object. -/
def jobjGet : JObj → List Char → Option JVal
  | .onil, _ => none
  | .ocons k2 v rest, k => if k2 = k then some v else jobjGet rest k

/-- Key lookup in a JSON value, when it is an object. -/
def jget (v : JVal) (k : List Char) : Option JVal :=
  match v with
  | .jobj kvs => jobjGet kvs k
  | _ => none

/-- Extraction of the `(code, message, data)` triple from a re-parsed
envelope document, navigating `structuredContent.response`. -/
def responseTriple (doc : JVal) : Option (Int × List Char × JArr) :=
  match jget doc "structuredContent".data with
  | none => none
  | some sc =>
    match jget sc "response".data with
    | none => none
    | some resp =>
      match jget resp "code".data, jget resp "message".data, jget resp "data".data with
      | some (.jnum c), some (.jstr m), some (.jarr d) => some (c, m, d)
      | _, _, _ => none

/-- C8: serializing an envelope with the response builder and re-parsing the
resulting JSON text yields exactly the original code, message and data under
structuredContent.response, for both values of the debug/pretty-print flag
(a non-empty message is required, since the builder replaces a falsy message
by the ERROR_MESSAGES default). -/
theorem C8_roundtrip_envelope (debug : Bool) (code : Int) (msg : List Char) (data : JArr)
    (hmsg : msg ≠ []) :
    (jparse (ResponseBuilder_build debug code (some data) (some msg))).bind responseTriple =
      some (code, msg, data) := by
  obtain ⟨c0, ms, rfl⟩ := List.exists_cons_of_ne_nil hmsg
  unfold ResponseBuilder_build
  dsimp only
  rw [jparse_jdump]
  rfl

theorem C8_roundtrip_envelope_witness :
    ("success".data ≠ ([] : List Char)) ∧
    (jparse (ResponseBuilder_build false 0
        (some (.acons (.jobj (.ocons "a".data (.jnum 1)
          (.ocons "b".data (.jstr "x".data) .onil))) .anil))
        (some "success".data))).bind responseTriple =
      some (0, "success".data,
        .acons (.jobj (.ocons "a".data (.jnum 1)
          (.ocons "b".data (.jstr "x".data) .onil))) .anil) :=
  ⟨by decide, C8_roundtrip_envelope false 0 "success".data _ (by decide)⟩
